import Mathlib

/-!
Verification development for the RouteTracker GPS distance engine
(src/utils/gpsFilter.ts and the GPS motion classifier in
src/hooks/useMotionDetection, function analyzeGPSMotion).

Modelling conventions, used consistently below:

* JavaScript numbers are modelled as exact rationals (ℚ).  Non-finite
  values (NaN, ±Infinity) can only reach the code paths we study through
  the raw latitude/longitude inputs of processPoint, which are rejected by
  Number.isFinite before any arithmetic happens; we therefore model a raw
  coordinate as an `Option ℚ`, where `none` stands for any non-finite
  number.  All other numeric inputs are plain rationals.

* The haversine distance uses sin/cos/atan2/sqrt, which have no exact
  rational evaluation.  Every theorem below is therefore parameterised by
  an arbitrary kernel `hav : ℚ → ℚ → ℚ → ℚ → ℚ` standing for the exact
  real-number value of the trigonometric core of haversineDistance
  (the source multiplies the Earth radius into it; the parameter stands
  for the final metre value).  The coordinate-validity guard that wraps
  the kernel in the source is modelled explicitly (`haversineDistance`).

* `Math.sqrt` appears in the source only inside
  `calculatePositionVariance` / `calculateVariance`, whose results are
  used exclusively in comparisons against constant thresholds
  (8 and 20).  Since `Math.sqrt` is monotone and both sides are
  nonnegative, `sqrt (t / n) < c ↔ t / n < c * c`; we embed the value
  before the square root (`calculatePositionVarianceSq`) and compare
  against the squared thresholds, which is observationally identical.

* Mutable class fields become an explicit state record threaded through
  the functions; each TypeScript method becomes a pure function from
  state (plus arguments) to result and next state.
-/

namespace RouteTracker

/-- A JavaScript number that may be non-finite; `none` models NaN or ±Infinity. -/
abbrev JSNum := Option ℚ

/-- Abstract haversine kernel: the exact real value, in metres, of the
haversine great-circle distance between two coordinates.  Kept abstract
because its trigonometric definition has no exact rational evaluation. -/
abbrev Hav := ℚ → ℚ → ℚ → ℚ → ℚ

/-- GPSFilter.isValidCoordinate (src/utils/gpsFilter.ts lines 87-92):
finiteness is enforced by the `Option ℚ` input model, range checks here. -/
def isValidCoordinate (lat lon : ℚ) : Bool :=
  decide (-90 ≤ lat) && decide (lat ≤ 90) && decide (-180 ≤ lon) && decide (lon ≤ 180)

/-- Validity of a possibly non-finite raw coordinate pair
(`Number.isFinite` plus the range checks). -/
def isValidCoordinateJS (lat lon : JSNum) : Bool :=
  match lat, lon with
  | some la, some lo => isValidCoordinate la lo
  | _, _ => false

/-- GPSFilter.haversineDistance (lines 64-85): returns 0 when either
endpoint fails the coordinate validity check, otherwise the haversine
value (abstracted by `hav`). -/
def haversineDistance (hav : Hav) (lat1 lon1 lat2 lon2 : ℚ) : ℚ :=
  if isValidCoordinate lat1 lon1 && isValidCoordinate lat2 lon2 then
    hav lat1 lon1 lat2 lon2
  else 0

/-- KalmanState (lines 16-22). -/
structure KalmanState where
  lat : ℚ
  lon : ℚ
  latVariance : ℚ
  lonVariance : ℚ
  timestamp : ℚ
deriving DecidableEq

/-- FilteredPoint (lines 3-14).  The raw* fields are optional in the
TypeScript interface but are always set by processPoint. -/
structure FilteredPoint where
  latitude : ℚ
  longitude : ℚ
  timestamp : ℚ
  accuracy : ℚ
  speed : ℚ
  isValidMovement : Bool
  filteredDistance : ℚ
  rawLatitude : ℚ
  rawLongitude : ℚ
deriving DecidableEq

/-- One entry of GPSFilter.recentPositions (line 33). -/
structure RecentPos where
  lat : ℚ
  lon : ℚ
  timestamp : ℚ
deriving DecidableEq

/-- The mutable fields of class GPSFilter (lines 25-33). -/
structure GPSFilterState where
  kalmanState : Option KalmanState
  pointBuffer : List FilteredPoint
  lastValidPoint : Option FilteredPoint
  isStationaryLocked : Bool
  lockReleaseTime : ℚ
  dwellCenter : Option (ℚ × ℚ)
  consecutiveStationaryCount : Nat
  consecutiveMovingCount : Nat
  recentPositions : List RecentPos
deriving DecidableEq

/-- Constructor defaults of GPSFilter, also the result of reset() (lines 25-33, 52-62). -/
def initState : GPSFilterState :=
  { kalmanState := none
    pointBuffer := []
    lastValidPoint := none
    isStationaryLocked := true
    lockReleaseTime := 0
    dwellCenter := none
    consecutiveStationaryCount := 0
    consecutiveMovingCount := 0
    recentPositions := [] }

def BUFFER_SIZE : Nat := 20
def STATIONARY_LOCK_RELEASE_METERS : ℚ := 15
def STATIONARY_LOCK_RELEASE_SECONDS : ℚ := 20
def DWELL_RADIUS_METERS : ℚ := 12
def MIN_SPEED_MPS : ℚ := 2/5
def MIN_ACCURACY_METERS : ℚ := 50
def MIN_SEGMENT_METERS : ℚ := 5
def CONSECUTIVE_MOVING_THRESHOLD : Nat := 2
def CONSECUTIVE_STATIONARY_THRESHOLD : Nat := 4
def PROCESS_NOISE : ℚ := 2
def MEASUREMENT_NOISE_BASE : ℚ := 12
def VARIANCE_WINDOW_SIZE : Nat := 10
def MAX_STATIONARY_VARIANCE : ℚ := 8

/-- GPSFilter.applyKalmanFilter (lines 94-134), acting on the optional
Kalman state; returns the filtered coordinate and the new state. -/
def applyKalmanFilter (st : Option KalmanState) (lat lon accuracy timestamp : ℚ) :
    (ℚ × ℚ) × KalmanState :=
  let measurementNoise := max MEASUREMENT_NOISE_BASE accuracy
  match st with
  | none =>
      ((lat, lon),
        { lat := lat, lon := lon,
          latVariance := measurementNoise * measurementNoise,
          lonVariance := measurementNoise * measurementNoise,
          timestamp := timestamp })
  | some k =>
      let timeDelta := (timestamp - k.timestamp) / 1000
      let processNoise := PROCESS_NOISE * timeDelta
      let predictedLatVariance := k.latVariance + processNoise * processNoise
      let predictedLonVariance := k.lonVariance + processNoise * processNoise
      let latKalmanGain :=
        predictedLatVariance / (predictedLatVariance + measurementNoise * measurementNoise)
      let lonKalmanGain :=
        predictedLonVariance / (predictedLonVariance + measurementNoise * measurementNoise)
      let newLat := k.lat + latKalmanGain * (lat - k.lat)
      let newLon := k.lon + lonKalmanGain * (lon - k.lon)
      ((newLat, newLon),
        { lat := newLat, lon := newLon,
          latVariance := (1 - latKalmanGain) * predictedLatVariance,
          lonVariance := (1 - lonKalmanGain) * predictedLonVariance,
          timestamp := timestamp })

/-- GPSFilter.calculatePositionVariance (lines 136-149), embedded as the
value before the final Math.sqrt (compared against squared thresholds). -/
def calculatePositionVarianceSq (hav : Hav) (ps : List RecentPos) : ℚ :=
  if ps.length < 3 then 0
  else
    let n : ℚ := (ps.length : ℚ)
    let centroidLat := (ps.map RecentPos.lat).sum / n
    let centroidLon := (ps.map RecentPos.lon).sum / n
    let total := (ps.map fun p =>
      haversineDistance hav centroidLat centroidLon p.lat p.lon *
      haversineDistance hav centroidLat centroidLon p.lat p.lon).sum
    total / n

/-- Timestamp of the newest buffered point (the `now` of checkStationaryLock). -/
def nowOf (s : GPSFilterState) : ℚ :=
  match s.pointBuffer.getLast? with
  | some p => p.timestamp
  | none => 0

/-- The trailing window of checkStationaryLock (lines 154-157): buffered
points whose timestamp is at least `now - 20 s`. -/
def windowPoints (s : GPSFilterState) : List FilteredPoint :=
  s.pointBuffer.filter fun p =>
    decide (nowOf s - STATIONARY_LOCK_RELEASE_SECONDS * 1000 ≤ p.timestamp)

/-- Net displacement between the oldest and newest point of a window (lines 160-165). -/
def netDisplacement (hav : Hav) (pts : List FilteredPoint) : ℚ :=
  match pts.head?, pts.getLast? with
  | some oldest, some newest =>
      haversineDistance hav oldest.latitude oldest.longitude newest.latitude newest.longitude
  | _, _ => 0

/-- Average reported speed over a window (line 167). -/
def avgSpeed (pts : List FilteredPoint) : ℚ :=
  (pts.map FilteredPoint.speed).sum / (pts.length : ℚ)

/-- Average reported accuracy over a window (line 168). -/
def avgAccuracy (pts : List FilteredPoint) : ℚ :=
  (pts.map FilteredPoint.accuracy).sum / (pts.length : ℚ)

/-- Dwell center recorded on re-lock: the newest window point's position (line 191). -/
def lastPosOf (pts : List FilteredPoint) : Option (ℚ × ℚ) :=
  match pts.getLast? with
  | some newest => some (newest.latitude, newest.longitude)
  | none => none

/-- GPSFilter.checkStationaryLock (lines 151-195). -/
def checkStationaryLock (hav : Hav) (s : GPSFilterState) : GPSFilterState :=
  if s.pointBuffer.length < 4 then s
  else
    let recentPoints := windowPoints s
    if recentPoints.length < 3 then s
    else
      let nd := netDisplacement hav recentPoints
      let avgSp := avgSpeed recentPoints
      let avgAcc := avgAccuracy recentPoints
      let varSq := calculatePositionVarianceSq hav s.recentPositions
      if s.isStationaryLocked then
        if STATIONARY_LOCK_RELEASE_METERS < nd ∧
           MIN_SPEED_MPS ≤ avgSp ∧
           avgAcc ≤ MIN_ACCURACY_METERS ∧
           CONSECUTIVE_MOVING_THRESHOLD ≤ s.consecutiveMovingCount ∧
           MAX_STATIONARY_VARIANCE * MAX_STATIONARY_VARIANCE < varSq then
          { s with isStationaryLocked := false
                   lockReleaseTime := nowOf s
                   dwellCenter := none
                   consecutiveStationaryCount := 0 }
        else s
      else
        if (nd < 12 ∧ avgSp < 1/2) ∨
           (varSq < MAX_STATIONARY_VARIANCE * MAX_STATIONARY_VARIANCE ∧
            CONSECUTIVE_STATIONARY_THRESHOLD ≤ s.consecutiveStationaryCount) then
          { s with isStationaryLocked := true
                   dwellCenter := lastPosOf recentPoints
                   consecutiveMovingCount := 0 }
        else s

/-- Return value of processPoint (line 204). -/
structure ProcessResult where
  distance : ℚ
  isMoving : Bool
  filteredLat : JSNum
  filteredLon : JSNum
deriving DecidableEq

/-- The rejection result shared by every zero-contribution branch of
processPoint on the valid-coordinate path. -/
def zeroResult (filtered : ℚ × ℚ) : ProcessResult :=
  { distance := 0, isMoving := false,
    filteredLat := some filtered.1, filteredLon := some filtered.2 }

/-- Steps of processPoint before checkStationaryLock (lines 218-259):
Kalman update, recent-position window push, motion-count bookkeeping,
point construction and buffering.  Returns the filtered coordinate, the
freshly built point and the updated state. -/
def preLockUpdate (s : GPSFilterState) (rawLat rawLon timestamp acc spd motionConfidence : ℚ) :
    (ℚ × ℚ) × FilteredPoint × GPSFilterState :=
  let kr := applyKalmanFilter s.kalmanState rawLat rawLon acc timestamp
  let filtered := kr.1
  let s1 := { s with kalmanState := some kr.2 }
  let rp0 := s1.recentPositions ++ [⟨filtered.1, filtered.2, timestamp⟩]
  let rp := if VARIANCE_WINDOW_SIZE < rp0.length then rp0.tail else rp0
  let s2 := { s1 with recentPositions := rp }
  let adjustedConfidence := if spd < 2/5 then min motionConfidence (3/10) else motionConfidence
  let isMovingBySpeed := MIN_SPEED_MPS ≤ spd
  let isMovingByConfidence := (3/5 : ℚ) ≤ adjustedConfidence
  let s3 :=
    if isMovingBySpeed ∧ isMovingByConfidence then
      { s2 with consecutiveMovingCount := s2.consecutiveMovingCount + 1
                consecutiveStationaryCount := 0 }
    else if ¬ isMovingBySpeed ∧ ¬ isMovingByConfidence then
      { s2 with consecutiveStationaryCount := s2.consecutiveStationaryCount + 1
                consecutiveMovingCount := 0 }
    else if 0 < s2.consecutiveMovingCount then
      { s2 with consecutiveMovingCount := s2.consecutiveMovingCount - 1 }
    else s2
  let point : FilteredPoint :=
    { latitude := filtered.1, longitude := filtered.2, timestamp := timestamp,
      accuracy := acc, speed := spd, isValidMovement := false, filteredDistance := 0,
      rawLatitude := rawLat, rawLongitude := rawLon }
  let pb0 := s3.pointBuffer ++ [point]
  let pb := if BUFFER_SIZE < pb0.length then pb0.tail else pb0
  (filtered, point, { s3 with pointBuffer := pb })

/-- Steps of processPoint after the dwell guard (lines 293-367): variance
floor, first-anchor initialisation, minimum segment, implied-speed
plausibility, accuracy ceiling, consecutive-moving debounce, acceptance.
On acceptance the source mutates the buffered point object in place
(isValidMovement / filteredDistance); since that object is the last
buffer element, we replace it there. -/
def segmentPhase (hav : Hav) (s : GPSFilterState) (filtered : ℚ × ℚ)
    (point : FilteredPoint) (timestamp acc : ℚ) : ProcessResult × GPSFilterState :=
  let varSq := calculatePositionVarianceSq hav s.recentPositions
  if varSq < MAX_STATIONARY_VARIANCE * MAX_STATIONARY_VARIANCE ∧
     5 ≤ s.recentPositions.length then
    (zeroResult filtered, s)
  else
    match s.lastValidPoint with
    | none =>
        ({ distance := 0, isMoving := true,
           filteredLat := some filtered.1, filteredLon := some filtered.2 },
         { s with lastValidPoint := some point })
    | some lvp =>
        let segmentDistance :=
          haversineDistance hav lvp.latitude lvp.longitude filtered.1 filtered.2
        if segmentDistance < MIN_SEGMENT_METERS then (zeroResult filtered, s)
        else
          let timeDiff := (timestamp - lvp.timestamp) / 1000
          if 0 < timeDiff ∧
             (55 < segmentDistance / timeDiff ∨ segmentDistance / timeDiff < 1/2) then
            (zeroResult filtered, s)
          else if MIN_ACCURACY_METERS < acc then (zeroResult filtered, s)
          else if s.consecutiveMovingCount < CONSECUTIVE_MOVING_THRESHOLD then
            (zeroResult filtered, s)
          else
            let point2 :=
              { point with isValidMovement := true, filteredDistance := segmentDistance }
            ({ distance := segmentDistance / 1000, isMoving := true,
               filteredLat := some filtered.1, filteredLon := some filtered.2 },
             { s with lastValidPoint := some point2,
                      pointBuffer := s.pointBuffer.dropLast ++ [point2] })

/-- The lock and dwell guards of processPoint (lines 263-291), followed by
`segmentPhase`. -/
def postLockPhase (hav : Hav) (s : GPSFilterState) (filtered : ℚ × ℚ)
    (point : FilteredPoint) (timestamp acc : ℚ) : ProcessResult × GPSFilterState :=
  if s.isStationaryLocked then
    let s1 := if s.dwellCenter = none then { s with dwellCenter := some filtered } else s
    (zeroResult filtered, { s1 with lastValidPoint := some point })
  else
    match s.dwellCenter with
    | some c =>
        let distFromDwell := haversineDistance hav c.1 c.2 filtered.1 filtered.2
        if distFromDwell < DWELL_RADIUS_METERS then (zeroResult filtered, s)
        else segmentPhase hav { s with dwellCenter := none } filtered point timestamp acc
    | none => segmentPhase hav s filtered point timestamp acc

/-- GPSFilter.processPoint (lines 197-368). -/
def processPoint (hav : Hav) (s : GPSFilterState)
    (latitude longitude : JSNum) (timestamp : ℚ) (accuracy : Option ℚ)
    (speed : Option ℚ) (motionConfidence : ℚ) : ProcessResult × GPSFilterState :=
  match latitude, longitude with
  | some rawLat, some rawLon =>
      if isValidCoordinate rawLat rawLon then
        let acc := accuracy.getD 20
        let spd := speed.getD 0
        let pre := preLockUpdate s rawLat rawLon timestamp acc spd motionConfidence
        let sLock := checkStationaryLock hav pre.2.2
        postLockPhase hav sLock pre.1 pre.2.1 timestamp acc
      else
        ({ distance := 0, isMoving := false,
           filteredLat := latitude, filteredLon := longitude }, s)
  | _, _ =>
      ({ distance := 0, isMoving := false,
         filteredLat := latitude, filteredLon := longitude }, s)

/-- One streamed sample: the argument list of processPoint. -/
structure SampleInput where
  latitude : JSNum
  longitude : JSNum
  timestamp : ℚ
  accuracy : Option ℚ
  speed : Option ℚ
  motionConfidence : ℚ
deriving DecidableEq

/-- Feed a list of samples through processPoint, collecting the per-sample
results and the final filter state. -/
def runFilter (hav : Hav) (s : GPSFilterState) :
    List SampleInput → List ProcessResult × GPSFilterState
  | [] => ([], s)
  | i :: rest =>
      let r := processPoint hav s i.latitude i.longitude i.timestamp
        i.accuracy i.speed i.motionConfidence
      let tailRun := runFilter hav r.2 rest
      (r.1 :: tailRun.1, tailRun.2)

/-- Total distance accumulated by the caller (src/hooks/useTrip.ts adds
each result's distance to the trip total). -/
def totalOf (rs : List ProcessResult) : ℚ :=
  (rs.map ProcessResult.distance).sum

/-!  Batch recomputer: calculateFilteredDistance (lines 406-526).

The GPSPoint records fed to it carry the fields the computation reads:
latitude, longitude, timestamp, optional accuracy and the optional
isStationary flag written by the tracking hook (src/hooks/useTrip.ts).
The string identifier fields of the stored record do not participate. -/

structure GPSPoint where
  latitude : ℚ
  longitude : ℚ
  timestamp : ℚ
  accuracy : Option ℚ
  isStationary : Option Bool
deriving DecidableEq

def BATCH_MIN_SEGMENT_METERS : ℚ := 5
def BATCH_MAX_ACCURACY_METERS : ℚ := 50
def BATCH_MIN_SPEED_KMH : ℚ := 1
def BATCH_MAX_SPEED_KMH : ℚ := 200
def BATCH_VARIANCE_WINDOW : Nat := 8
def BATCH_MAX_VARIANCE_METERS : ℚ := 20

/-- The loop-local state of calculateFilteredDistance (lines 411-422). -/
structure BatchState where
  totalDistance : ℚ
  lastValidPoint : Option GPSPoint
  stationaryCount : Nat
  movingCount : Nat
  recentPoints : List GPSPoint
deriving DecidableEq

def initBatchState : BatchState :=
  { totalDistance := 0, lastValidPoint := none,
    stationaryCount := 0, movingCount := 0, recentPoints := [] }

/-- The local calculateVariance of calculateFilteredDistance (lines
451-461), embedded before its final Math.sqrt as for the streaming
variance (compared against the squared threshold). -/
def calculateVarianceSq (hav : Hav) (pts : List GPSPoint) : ℚ :=
  if pts.length < 3 then 0
  else
    let n : ℚ := (pts.length : ℚ)
    let centroidLat := (pts.map GPSPoint.latitude).sum / n
    let centroidLon := (pts.map GPSPoint.longitude).sum / n
    let total := (pts.map fun p =>
      haversineDistance hav centroidLat centroidLon p.latitude p.longitude *
      haversineDistance hav centroidLat centroidLon p.latitude p.longitude).sum
    total / n

/-- The push-and-trim of the batch variance window (lines 470-473). -/
def batchPush (st : BatchState) (point : GPSPoint) : List GPSPoint :=
  if BATCH_VARIANCE_WINDOW < (st.recentPoints ++ [point]).length then
    (st.recentPoints ++ [point]).tail
  else st.recentPoints ++ [point]

/-- One iteration of the for-loop of calculateFilteredDistance (lines 463-523). -/
def batchStep (hav : Hav) (st : BatchState) (point : GPSPoint) : BatchState :=
  if point.latitude = 0 ∧ point.longitude = 0 then st
  else if ¬ isValidCoordinate point.latitude point.longitude then st
  else
    let accuracy := point.accuracy.getD 20
    if BATCH_MAX_ACCURACY_METERS < accuracy then st
    else
      let rp := batchPush st point
      let st1 := { st with recentPoints := rp }
      let varSq := calculateVarianceSq hav rp
      if varSq < BATCH_MAX_VARIANCE_METERS * BATCH_MAX_VARIANCE_METERS ∧ 5 ≤ rp.length then
        { st1 with stationaryCount := st1.stationaryCount + 1, movingCount := 0 }
      else if point.isStationary = some true then
        { st1 with stationaryCount := st1.stationaryCount + 1, movingCount := 0 }
      else
        let st2 := { st1 with movingCount := st1.movingCount + 1, stationaryCount := 0 }
        if st2.movingCount < 3 then { st2 with lastValidPoint := some point }
        else
          match st2.lastValidPoint with
          | none => { st2 with lastValidPoint := some point }
          | some lvp =>
              let segmentDistanceMeters :=
                haversineDistance hav lvp.latitude lvp.longitude point.latitude point.longitude
              if segmentDistanceMeters < BATCH_MIN_SEGMENT_METERS then st2
              else
                let timeDiffMs := point.timestamp - lvp.timestamp
                let timeDiffHours := timeDiffMs / (1000 * 60 * 60)
                if 0 < timeDiffHours ∧
                   (segmentDistanceMeters / 1000 / timeDiffHours < BATCH_MIN_SPEED_KMH ∨
                    BATCH_MAX_SPEED_KMH < segmentDistanceMeters / 1000 / timeDiffHours) then
                  st2
                else
                  { st2 with totalDistance := st2.totalDistance + segmentDistanceMeters / 1000,
                             lastValidPoint := some point }

/-- Stable insertion by timestamp: the inserted point goes after every
already-placed point with a strictly smaller timestamp and before the
first point whose timestamp is not smaller. -/
def insertByTimestamp (p : GPSPoint) : List GPSPoint → List GPSPoint
  | [] => [p]
  | q :: rest =>
      if q.timestamp < p.timestamp then q :: insertByTimestamp p rest
      else p :: q :: rest

/-- The pre-sort of calculateFilteredDistance (line 409):
`[...points].sort((a, b) => a.timestamp - b.timestamp)`.
ECMAScript Array.prototype.sort is stable, and a stable sort by a key is
uniquely determined, so this stable insertion sort computes the same
list. -/
def sortByTimestamp : List GPSPoint → List GPSPoint
  | [] => []
  | p :: rest => insertByTimestamp p (sortByTimestamp rest)

/-- calculateFilteredDistance (lines 406-526). -/
def calculateFilteredDistance (hav : Hav) (points : List GPSPoint) : ℚ :=
  if points.length < 2 then 0
  else ((sortByTimestamp points).foldl (batchStep hav) initBatchState).totalDistance

/-!  Motion classifier: analyzeGPSMotion
(src/hooks/useMotionDetection.ts, lines 164-249 of that module). -/

/-- The argument record of analyzeGPSMotion (GPSLocationForMotion). -/
structure GPSLocationForMotion where
  latitude : ℚ
  longitude : ℚ
  timestamp : ℚ
  accuracy : Option ℚ
  speed : Option ℚ
  heading : Option ℚ
deriving DecidableEq

/-- Module-level mutable state of the GPS motion analyser:
gpsMotionBuffer and smoothedConfidence. -/
structure MotionAnalyzerState where
  buffer : List GPSLocationForMotion
  smoothedConfidence : ℚ
deriving DecidableEq

def GPS_BUFFER_SIZE : Nat := 10

/-- JavaScript `x || d` on an optional number: the default replaces both
a missing value and a value of 0 (0 is falsy). -/
def jsOrDefault (x : Option ℚ) (d : ℚ) : ℚ :=
  match x with
  | some v => if v = 0 then d else v
  | none => d

/-- Total path length through the buffer (lines 208-214): sum of the
haversine distances of consecutive buffered points. -/
def pathDistance (hav : Hav) : List GPSLocationForMotion → ℚ
  | a :: b :: rest => hav a.latitude a.longitude b.latitude b.longitude
      + pathDistance hav (b :: rest)
  | _ => 0

/-- Result of analyzeGPSMotion: (isStationary, motionConfidence). -/
structure MotionResult where
  isStationary : Bool
  motionConfidence : ℚ
deriving DecidableEq

/-- The GPS-geometry confidence computed by analyzeGPSMotion before any
accelerometer blending (lines 203-236), as a function of the post-push
buffer and the current location. -/
def gpsGeometryConfidence (hav : Hav) (buf : List GPSLocationForMotion)
    (location : GPSLocationForMotion) : ℚ :=
  match buf.head?, buf.getLast? with
  | some oldest, some newest =>
      let netDisp := hav oldest.latitude oldest.longitude newest.latitude newest.longitude
      let windowTimeSec := (newest.timestamp - oldest.timestamp) / 1000
      let totalPathDistance := pathDistance hav buf
      let avgAcc := (buf.map fun p => jsOrDefault p.accuracy 25).sum / (buf.length : ℚ)
      let hasDeviceSpeed : Bool :=
        match location.speed with
        | some sp => decide (0 ≤ sp)
        | none => false
      let deviceSpeed := if hasDeviceSpeed then location.speed.getD 0 else 0
      let netSpeed := if 0 < windowTimeSec then netDisp / windowTimeSec else 0
      let straightness := if 0 < totalPathDistance then netDisp / totalPathDistance else 0
      if hasDeviceSpeed ∧ 1/2 ≤ deviceSpeed then
        min (19/20) (1/2 + deviceSpeed * (3/10))
      else if avgAcc * (3/2) < netDisp ∧ 1/2 ≤ straightness ∧ 3/10 ≤ netSpeed then
        min (9/10) (straightness * (3/5) + netSpeed * (1/5))
      else if avgAcc < netDisp ∧ 3/10 ≤ straightness ∧ 1/5 ≤ netSpeed then
        min (7/10) (straightness * (1/2) + netSpeed * (3/10))
      else if 3/10 ≤ netSpeed then
        min (1/2) (netSpeed * (2/5) + straightness * (3/10))
      else 0
  | _, _ => 0

/-- analyzeGPSMotion (lines 192-249): pushes the location into the bounded
buffer, computes a raw confidence from GPS geometry, blends in the
accelerometer confidence when it is defined and strictly positive, and
exponentially smooths the result. -/
def analyzeGPSMotion (hav : Hav) (st : MotionAnalyzerState)
    (location : GPSLocationForMotion) (accelerometerConfidence : Option ℚ) :
    MotionResult × MotionAnalyzerState :=
  let buf0 := st.buffer ++ [location]
  let buf := if GPS_BUFFER_SIZE < buf0.length then buf0.tail else buf0
  if buf.length < 3 then
    ({ isStationary := true, motionConfidence := 0 }, { buffer := buf, smoothedConfidence := 0 })
  else
    let raw0 := gpsGeometryConfidence hav buf location
    let rawConfidence :=
      match accelerometerConfidence with
      | some ac => if 0 < ac then raw0 * (2/5) + ac * (3/5) else raw0
      | none => raw0
    let sm := st.smoothedConfidence * (1/2) + rawConfidence * (1/2)
    ({ isStationary := decide (sm < 1/4), motionConfidence := sm },
     { buffer := buf, smoothedConfidence := sm })

/-!  Frame lemmas: which state components each phase leaves untouched. -/

theorem checkStationaryLock_frame (hav : Hav) (s : GPSFilterState) :
    (checkStationaryLock hav s).kalmanState = s.kalmanState ∧
    (checkStationaryLock hav s).pointBuffer = s.pointBuffer ∧
    (checkStationaryLock hav s).recentPositions = s.recentPositions ∧
    (checkStationaryLock hav s).lastValidPoint = s.lastValidPoint := by
  simp only [checkStationaryLock]
  split_ifs <;> exact ⟨rfl, rfl, rfl, rfl⟩

theorem segmentPhase_lock (hav : Hav) (s : GPSFilterState) (filtered : ℚ × ℚ)
    (point : FilteredPoint) (timestamp acc : ℚ) :
    (segmentPhase hav s filtered point timestamp acc).2.isStationaryLocked =
      s.isStationaryLocked ∧
    (segmentPhase hav s filtered point timestamp acc).2.kalmanState = s.kalmanState := by
  refine ⟨?_, ?_⟩ <;>
  · simp only [segmentPhase]
    split
    · rfl
    · split
      · rfl
      · split_ifs <;> rfl

theorem postLockPhase_lock (hav : Hav) (s : GPSFilterState) (filtered : ℚ × ℚ)
    (point : FilteredPoint) (timestamp acc : ℚ) :
    (postLockPhase hav s filtered point timestamp acc).2.isStationaryLocked =
      s.isStationaryLocked ∧
    (postLockPhase hav s filtered point timestamp acc).2.kalmanState = s.kalmanState := by
  refine ⟨?_, ?_⟩
  · simp only [postLockPhase]
    split
    · split_ifs <;> rfl
    · split
      · split
        · rfl
        · simpa using (segmentPhase_lock hav { s with dwellCenter := none }
            filtered point timestamp acc).1
      · exact (segmentPhase_lock hav s filtered point timestamp acc).1
  · simp only [postLockPhase]
    split
    · split_ifs <;> rfl
    · split
      · split
        · rfl
        · simpa using (segmentPhase_lock hav { s with dwellCenter := none }
            filtered point timestamp acc).2
      · exact (segmentPhase_lock hav s filtered point timestamp acc).2

theorem preLockUpdate_frame (s : GPSFilterState)
    (rawLat rawLon timestamp acc spd motionConfidence : ℚ) :
    (preLockUpdate s rawLat rawLon timestamp acc spd motionConfidence).2.2.isStationaryLocked =
      s.isStationaryLocked ∧
    (preLockUpdate s rawLat rawLon timestamp acc spd motionConfidence).2.2.lockReleaseTime =
      s.lockReleaseTime ∧
    (preLockUpdate s rawLat rawLon timestamp acc spd motionConfidence).2.2.dwellCenter =
      s.dwellCenter ∧
    (preLockUpdate s rawLat rawLon timestamp acc spd motionConfidence).2.2.lastValidPoint =
      s.lastValidPoint ∧
    (preLockUpdate s rawLat rawLon timestamp acc spd motionConfidence).2.2.kalmanState =
      some (applyKalmanFilter s.kalmanState rawLat rawLon acc timestamp).2 := by
  refine ⟨?_, ?_, ?_, ?_, ?_⟩ <;>
  · simp only [preLockUpdate]
    split_ifs <;> rfl

/-- Result of processPoint on a sample whose raw coordinates fail
validation: zero distance, not moving, raw coordinates echoed, state
untouched (lines 208-216). -/
theorem processPoint_invalid (hav : Hav) (s : GPSFilterState)
    (lat lon : JSNum) (ts : ℚ) (acc spd : Option ℚ) (conf : ℚ)
    (h : isValidCoordinateJS lat lon = false) :
    processPoint hav s lat lon ts acc spd conf =
      ({ distance := 0, isMoving := false, filteredLat := lat, filteredLon := lon }, s) := by
  cases lat with
  | none => rfl
  | some la =>
      cases lon with
      | none => rfl
      | some lo =>
          simp only [isValidCoordinateJS] at h
          simp only [processPoint, h, Bool.false_eq_true, if_false]

/-- C4: a processPoint call whose latitude or longitude is non-finite or
out of range does not throw (the embedding is a total function), returns
distance 0 and isMoving false, and echoes the raw input coordinates as
filteredLat/filteredLon. -/
theorem C4_invalid_input_echoes (hav : Hav) (s : GPSFilterState)
    (lat lon : JSNum) (ts : ℚ) (acc spd : Option ℚ) (conf : ℚ)
    (h : isValidCoordinateJS lat lon = false) :
    (processPoint hav s lat lon ts acc spd conf).1.distance = 0 ∧
    (processPoint hav s lat lon ts acc spd conf).1.isMoving = false ∧
    (processPoint hav s lat lon ts acc spd conf).1.filteredLat = lat ∧
    (processPoint hav s lat lon ts acc spd conf).1.filteredLon = lon := by
  rw [processPoint_invalid hav s lat lon ts acc spd conf h]
  exact ⟨rfl, rfl, rfl, rfl⟩

def hav0 : Hav := fun _ _ _ _ => 0

/-- Witness for C4 at latitude 200 (the test fixture of the repository). -/
theorem C4_witness :
    isValidCoordinateJS (some 200) (some 100) = false ∧
    ((processPoint hav0 initState (some 200) (some 100) 0 (some 10) (some 1) (4/5)).1.distance
        = 0 ∧
      (processPoint hav0 initState (some 200) (some 100) 0 (some 10) (some 1)
          (4/5)).1.isMoving = false ∧
      (processPoint hav0 initState (some 200) (some 100) 0 (some 10) (some 1)
          (4/5)).1.filteredLat = some 200 ∧
      (processPoint hav0 initState (some 200) (some 100) 0 (some 10) (some 1)
          (4/5)).1.filteredLon = some 100) := by
  have h : isValidCoordinateJS (some 200) (some 100) = false := by
    norm_num [isValidCoordinateJS, isValidCoordinate]
  exact ⟨h, C4_invalid_input_echoes hav0 initState (some 200) (some 100) 0 (some 10)
    (some 1) (4/5) h⟩

theorem runFilter_append (hav : Hav) (s : GPSFilterState) (xs ys : List SampleInput) :
    runFilter hav s (xs ++ ys) =
      ((runFilter hav s xs).1 ++ (runFilter hav (runFilter hav s xs).2 ys).1,
       (runFilter hav (runFilter hav s xs).2 ys).2) := by
  induction xs generalizing s with
  | nil => simp [runFilter]
  | cons i rest ih => simp [runFilter, ih]

theorem totalOf_append (a b : List ProcessResult) :
    totalOf (a ++ b) = totalOf a + totalOf b := by
  simp [totalOf]

/-- C5: a sample with invalid coordinates leaves the whole filter state
unchanged, so the results of all subsequent valid samples, and the final
state, coincide with the run in which the invalid sample was never
delivered, and the accumulated total is unchanged. -/
theorem C5_invalid_sample_transparent (hav : Hav) (s : GPSFilterState)
    (xs ys : List SampleInput) (i : SampleInput)
    (h : isValidCoordinateJS i.latitude i.longitude = false) :
    (runFilter hav s (xs ++ i :: ys)).2 = (runFilter hav s (xs ++ ys)).2 ∧
    (runFilter hav s (xs ++ i :: ys)).1 =
      (runFilter hav s xs).1 ++
        { distance := 0, isMoving := false,
          filteredLat := i.latitude, filteredLon := i.longitude } ::
        (runFilter hav (runFilter hav s xs).2 ys).1 ∧
    totalOf (runFilter hav s (xs ++ i :: ys)).1 =
      totalOf (runFilter hav s (xs ++ ys)).1 := by
  have hstep : ∀ s' : GPSFilterState,
      runFilter hav s' (i :: ys) =
        ({ distance := 0, isMoving := false,
           filteredLat := i.latitude, filteredLon := i.longitude } ::
          (runFilter hav s' ys).1, (runFilter hav s' ys).2) := by
    intro s'
    simp [runFilter, processPoint_invalid hav s' i.latitude i.longitude i.timestamp
      i.accuracy i.speed i.motionConfidence h]
  rw [runFilter_append hav s xs (i :: ys), runFilter_append hav s xs ys,
    hstep (runFilter hav s xs).2]
  refine ⟨rfl, rfl, ?_⟩
  simp [totalOf]

/-- Witness for C5: a lat-200 sample between two valid samples. -/
theorem C5_witness :
    isValidCoordinateJS (some 200) (some 100) = false ∧
    (runFilter hav0 initState
        ([⟨some 1, some 1, 0, some 10, some 1, 4/5⟩] ++
          ⟨some 200, some 100, 1000, some 10, some 1, 4/5⟩ ::
          [⟨some 1, some 1, 2000, some 10, some 1, 4/5⟩])).2 =
      (runFilter hav0 initState
        ([⟨some 1, some 1, 0, some 10, some 1, 4/5⟩] ++
          [⟨some 1, some 1, 2000, some 10, some 1, 4/5⟩])).2 ∧
    totalOf (runFilter hav0 initState
        ([⟨some 1, some 1, 0, some 10, some 1, 4/5⟩] ++
          ⟨some 200, some 100, 1000, some 10, some 1, 4/5⟩ ::
          [⟨some 1, some 1, 2000, some 10, some 1, 4/5⟩])).1 =
      totalOf (runFilter hav0 initState
        ([⟨some 1, some 1, 0, some 10, some 1, 4/5⟩] ++
          [⟨some 1, some 1, 2000, some 10, some 1, 4/5⟩])).1 := by
  have h : isValidCoordinateJS (some 200) (some 100) = false := by
    norm_num [isValidCoordinateJS, isValidCoordinate]
  have := C5_invalid_sample_transparent hav0 initState
    [⟨some 1, some 1, 0, some 10, some 1, 4/5⟩]
    [⟨some 1, some 1, 2000, some 10, some 1, 4/5⟩]
    ⟨some 200, some 100, 1000, some 10, some 1, 4/5⟩ h
  exact ⟨h, this.1, this.2.2⟩

/-- C7: the Kalman update is applied to every sample with valid
coordinates, whatever its reported accuracy; the per-axis gain is
predicted-variance / (predicted-variance + measurement-variance) with the
measurement noise clamped below by MEASUREMENT_NOISE_BASE. -/
theorem C7_kalman_always_updates (hav : Hav) (s : GPSFilterState)
    (lat lon ts conf : ℚ) (accuracy speed : Option ℚ)
    (hv : isValidCoordinate lat lon = true) :
    (processPoint hav s (some lat) (some lon) ts accuracy speed conf).2.kalmanState =
      some (applyKalmanFilter s.kalmanState lat lon (accuracy.getD 20) ts).2 ∧
    (∀ k : KalmanState, ∀ acc : ℚ,
      (applyKalmanFilter (some k) lat lon acc ts).2.lat =
        k.lat +
          (k.latVariance + (PROCESS_NOISE * ((ts - k.timestamp) / 1000)) *
              (PROCESS_NOISE * ((ts - k.timestamp) / 1000))) /
            ((k.latVariance + (PROCESS_NOISE * ((ts - k.timestamp) / 1000)) *
              (PROCESS_NOISE * ((ts - k.timestamp) / 1000))) +
              max MEASUREMENT_NOISE_BASE acc * max MEASUREMENT_NOISE_BASE acc) *
            (lat - k.lat) ∧
      (applyKalmanFilter (some k) lat lon acc ts).2.lon =
        k.lon +
          (k.lonVariance + (PROCESS_NOISE * ((ts - k.timestamp) / 1000)) *
              (PROCESS_NOISE * ((ts - k.timestamp) / 1000))) /
            ((k.lonVariance + (PROCESS_NOISE * ((ts - k.timestamp) / 1000)) *
              (PROCESS_NOISE * ((ts - k.timestamp) / 1000))) +
              max MEASUREMENT_NOISE_BASE acc * max MEASUREMENT_NOISE_BASE acc) *
            (lon - k.lon)) := by
  constructor
  · simp only [processPoint, hv, if_true]
    have hpre := preLockUpdate_frame s lat lon ts (accuracy.getD 20) (speed.getD 0) conf
    have hlock := checkStationaryLock_frame hav
      (preLockUpdate s lat lon ts (accuracy.getD 20) (speed.getD 0) conf).2.2
    have hpost := postLockPhase_lock hav
      (checkStationaryLock hav
        (preLockUpdate s lat lon ts (accuracy.getD 20) (speed.getD 0) conf).2.2)
      (preLockUpdate s lat lon ts (accuracy.getD 20) (speed.getD 0) conf).1
      (preLockUpdate s lat lon ts (accuracy.getD 20) (speed.getD 0) conf).2.1 ts
      (accuracy.getD 20)
    rw [hpost.2, hlock.1, hpre.2.2.2.2]
  · intro k acc
    exact ⟨rfl, rfl⟩

/-- Witness for C7 at a concrete valid coordinate and a very coarse
accuracy of 10000 m: the Kalman state is still updated. -/
theorem C7_witness :
    isValidCoordinate 10 10 = true ∧
    (processPoint hav0 initState (some 10) (some 10) 0 (some 10000) (some 1)
        (4/5)).2.kalmanState =
      some (applyKalmanFilter (none : Option KalmanState) 10 10 10000 0).2 ∧
    (applyKalmanFilter (some ⟨0, 0, 144, 144, 0⟩) 10 10 12 1000).2.lat =
      0 + (144 + (PROCESS_NOISE * ((1000 - 0) / 1000)) * (PROCESS_NOISE * ((1000 - 0) / 1000))) /
        ((144 + (PROCESS_NOISE * ((1000 - 0) / 1000)) * (PROCESS_NOISE * ((1000 - 0) / 1000))) +
          max MEASUREMENT_NOISE_BASE 12 * max MEASUREMENT_NOISE_BASE 12) * (10 - 0) := by
  have hv : isValidCoordinate 10 10 = true := by
    norm_num [isValidCoordinate]
  have h := C7_kalman_always_updates hav0 initState 10 10 0 (4/5) (some 10000) (some 1) hv
  refine ⟨hv, ?_, ?_⟩
  · simpa [initState] using h.1
  · have h2 := (C7_kalman_always_updates hav0 initState 10 10 1000 (4/5) (some 12)
      (some 1) hv).2 ⟨0, 0, 144, 144, 0⟩ 12
    exact h2.1

/-- The LOCKED-to-UNLOCKED transition condition of checkStationaryLock,
characterised exactly. -/
theorem unlock_iff (hav : Hav) (s : GPSFilterState) (hlock : s.isStationaryLocked = true) :
    (checkStationaryLock hav s).isStationaryLocked = false ↔
      (4 ≤ s.pointBuffer.length ∧ 3 ≤ (windowPoints s).length ∧
       STATIONARY_LOCK_RELEASE_METERS < netDisplacement hav (windowPoints s) ∧
       MIN_SPEED_MPS ≤ avgSpeed (windowPoints s) ∧
       avgAccuracy (windowPoints s) ≤ MIN_ACCURACY_METERS ∧
       CONSECUTIVE_MOVING_THRESHOLD ≤ s.consecutiveMovingCount ∧
       MAX_STATIONARY_VARIANCE * MAX_STATIONARY_VARIANCE <
         calculatePositionVarianceSq hav s.recentPositions) := by
  simp only [checkStationaryLock, hlock, if_true]
  by_cases h1 : s.pointBuffer.length < 4
  · rw [if_pos h1, hlock]
    simp only [Bool.true_eq_false, false_iff]
    rintro ⟨h4, -⟩
    omega
  · rw [if_neg h1]
    by_cases h2 : (windowPoints s).length < 3
    · rw [if_pos h2, hlock]
      simp only [Bool.true_eq_false, false_iff]
      rintro ⟨-, h3, -⟩
      omega
    · rw [if_neg h2]
      by_cases h3 : STATIONARY_LOCK_RELEASE_METERS < netDisplacement hav (windowPoints s) ∧
          MIN_SPEED_MPS ≤ avgSpeed (windowPoints s) ∧
          avgAccuracy (windowPoints s) ≤ MIN_ACCURACY_METERS ∧
          CONSECUTIVE_MOVING_THRESHOLD ≤ s.consecutiveMovingCount ∧
          MAX_STATIONARY_VARIANCE * MAX_STATIONARY_VARIANCE <
            calculatePositionVarianceSq hav s.recentPositions
      · rw [if_pos h3]
        simp only [true_iff]
        exact ⟨by omega, by omega, h3.1, h3.2.1, h3.2.2.1, h3.2.2.2.1, h3.2.2.2.2⟩
      · rw [if_neg h3, hlock]
        simp only [Bool.true_eq_false, false_iff]
        rintro ⟨-, -, hc1, hc2, hc3, hc4, hc5⟩
        exact h3 ⟨hc1, hc2, hc3, hc4, hc5⟩

/-- C2: from the LOCKED state the gate transitions to UNLOCKED exactly
when, over the trailing window, net displacement exceeds the release
distance, average speed reaches the floor, average accuracy is within
the ceiling, the consecutive-moving run reaches the minimum count and
positional variance exceeds the floor (plus the window-population
guards); if any single condition fails the gate stays locked.  The
second conjunct lifts this to processPoint: the lock state after a valid
sample is exactly the lock state computed by checkStationaryLock. -/
theorem C2_unlock_iff_all_conditions (hav : Hav) :
    (∀ s : GPSFilterState, s.isStationaryLocked = true →
      ((checkStationaryLock hav s).isStationaryLocked = false ↔
        (4 ≤ s.pointBuffer.length ∧ 3 ≤ (windowPoints s).length ∧
         STATIONARY_LOCK_RELEASE_METERS < netDisplacement hav (windowPoints s) ∧
         MIN_SPEED_MPS ≤ avgSpeed (windowPoints s) ∧
         avgAccuracy (windowPoints s) ≤ MIN_ACCURACY_METERS ∧
         CONSECUTIVE_MOVING_THRESHOLD ≤ s.consecutiveMovingCount ∧
         MAX_STATIONARY_VARIANCE * MAX_STATIONARY_VARIANCE <
           calculatePositionVarianceSq hav s.recentPositions))) ∧
    (∀ s : GPSFilterState, ∀ lat lon ts conf : ℚ, ∀ accuracy speed : Option ℚ,
      isValidCoordinate lat lon = true →
      (processPoint hav s (some lat) (some lon) ts accuracy speed conf).2.isStationaryLocked =
        (checkStationaryLock hav
          (preLockUpdate s lat lon ts (accuracy.getD 20) (speed.getD 0)
            conf).2.2).isStationaryLocked) := by
  constructor
  · exact unlock_iff hav
  · intro s lat lon ts conf accuracy speed hv
    simp only [processPoint, hv, if_true]
    exact (postLockPhase_lock hav _ _ _ ts _).1

/-- Witness for C2 at the initial state (empty buffer, so the window
guard fails and the gate stays locked), and a concrete valid sample. -/
theorem C2_witness :
    initState.isStationaryLocked = true ∧
    ((checkStationaryLock hav0 initState).isStationaryLocked = false ↔
      (4 ≤ initState.pointBuffer.length ∧ 3 ≤ (windowPoints initState).length ∧
       STATIONARY_LOCK_RELEASE_METERS < netDisplacement hav0 (windowPoints initState) ∧
       MIN_SPEED_MPS ≤ avgSpeed (windowPoints initState) ∧
       avgAccuracy (windowPoints initState) ≤ MIN_ACCURACY_METERS ∧
       CONSECUTIVE_MOVING_THRESHOLD ≤ initState.consecutiveMovingCount ∧
       MAX_STATIONARY_VARIANCE * MAX_STATIONARY_VARIANCE <
         calculatePositionVarianceSq hav0 initState.recentPositions)) ∧
    isValidCoordinate 1 1 = true ∧
    (processPoint hav0 initState (some 1) (some 1) 0 (some 10) (some 1)
        (4/5)).2.isStationaryLocked =
      (checkStationaryLock hav0
        (preLockUpdate initState 1 1 0 ((some (10:ℚ)).getD 20) ((some (1:ℚ)).getD 0)
          (4/5)).2.2).isStationaryLocked := by
  have hv : isValidCoordinate 1 1 = true := by norm_num [isValidCoordinate]
  exact ⟨rfl, (C2_unlock_iff_all_conditions hav0).1 initState rfl,
    hv, (C2_unlock_iff_all_conditions hav0).2 initState 1 1 0 (4/5) (some 10) (some 1) hv⟩

theorem haversineDistance_le_of (hav : Hav) (bound : ℚ)
    (hb : ∀ a b c d, hav a b c d ≤ bound) (h0 : 0 ≤ bound) (a b c d : ℚ) :
    haversineDistance hav a b c d ≤ bound := by
  unfold haversineDistance
  split_ifs
  · exact hb a b c d
  · exact h0

theorem netDisplacement_le (hav : Hav) (bound : ℚ)
    (hb : ∀ a b c d, hav a b c d ≤ bound) (h0 : 0 ≤ bound) (pts : List FilteredPoint) :
    netDisplacement hav pts ≤ bound := by
  unfold netDisplacement
  cases pts.head? with
  | none => exact h0
  | some oldest =>
      cases pts.getLast? with
      | none => exact h0
      | some newest => exact haversineDistance_le_of hav bound hb h0 _ _ _ _

/-- With a distance kernel bounded by the 15 m release threshold, a
locked gate can never unlock. -/
theorem checkStationaryLock_stays_locked (hav : Hav)
    (hb : ∀ a b c d, hav a b c d ≤ STATIONARY_LOCK_RELEASE_METERS)
    (s : GPSFilterState) (hlock : s.isStationaryLocked = true) :
    (checkStationaryLock hav s).isStationaryLocked = true := by
  by_cases hu : (checkStationaryLock hav s).isStationaryLocked = false
  · exfalso
    have h := (unlock_iff hav s hlock).mp hu
    have hle : netDisplacement hav (windowPoints s) ≤ STATIONARY_LOCK_RELEASE_METERS :=
      netDisplacement_le hav STATIONARY_LOCK_RELEASE_METERS hb
        (by norm_num [STATIONARY_LOCK_RELEASE_METERS]) _
    exact absurd h.2.2.1 (not_lt.mpr hle)
  · cases hres : (checkStationaryLock hav s).isStationaryLocked
    · exact absurd hres hu
    · rfl

theorem postLockPhase_locked_result (hav : Hav) (s : GPSFilterState) (filtered : ℚ × ℚ)
    (point : FilteredPoint) (timestamp acc : ℚ) (hlock : s.isStationaryLocked = true) :
    (postLockPhase hav s filtered point timestamp acc).1 = zeroResult filtered := by
  simp only [postLockPhase, hlock, if_true]

/-- A single processPoint call on a locked state, when the kernel cannot
reach the release threshold: the lock survives and the result is zero. -/
theorem processPoint_locked_step (hav : Hav)
    (hb : ∀ a b c d, hav a b c d ≤ STATIONARY_LOCK_RELEASE_METERS)
    (s : GPSFilterState) (hlock : s.isStationaryLocked = true)
    (lat lon : JSNum) (ts : ℚ) (acc spd : Option ℚ) (conf : ℚ) :
    (processPoint hav s lat lon ts acc spd conf).1.distance = 0 ∧
    (processPoint hav s lat lon ts acc spd conf).1.isMoving = false ∧
    (processPoint hav s lat lon ts acc spd conf).2.isStationaryLocked = true := by
  by_cases hv : isValidCoordinateJS lat lon = true
  · obtain ⟨la, rfl⟩ : ∃ la, lat = some la := by
      cases lat with
      | none => simp [isValidCoordinateJS] at hv
      | some la => exact ⟨la, rfl⟩
    obtain ⟨lo, rfl⟩ : ∃ lo, lon = some lo := by
      cases lon with
      | none => simp [isValidCoordinateJS] at hv
      | some lo => exact ⟨lo, rfl⟩
    simp only [isValidCoordinateJS] at hv
    simp only [processPoint, hv, if_true]
    have hpre := preLockUpdate_frame s la lo ts (acc.getD 20) (spd.getD 0) conf
    have hmidlock : (preLockUpdate s la lo ts (acc.getD 20) (spd.getD 0)
        conf).2.2.isStationaryLocked = true := by rw [hpre.1, hlock]
    have hchk := checkStationaryLock_stays_locked hav hb _ hmidlock
    have hres := postLockPhase_locked_result hav
      (checkStationaryLock hav (preLockUpdate s la lo ts (acc.getD 20) (spd.getD 0) conf).2.2)
      (preLockUpdate s la lo ts (acc.getD 20) (spd.getD 0) conf).1
      (preLockUpdate s la lo ts (acc.getD 20) (spd.getD 0) conf).2.1 ts (acc.getD 20) hchk
    have hpost := (postLockPhase_lock hav
      (checkStationaryLock hav (preLockUpdate s la lo ts (acc.getD 20) (spd.getD 0) conf).2.2)
      (preLockUpdate s la lo ts (acc.getD 20) (spd.getD 0) conf).1
      (preLockUpdate s la lo ts (acc.getD 20) (spd.getD 0) conf).2.1 ts (acc.getD 20)).1
    rw [hres, hpost, hchk]
    exact ⟨rfl, rfl, rfl⟩
  · have hv2 : isValidCoordinateJS lat lon = false := by
      cases hvv : isValidCoordinateJS lat lon
      · rfl
      · exact absurd hvv hv
    rw [processPoint_invalid hav s lat lon ts acc spd conf hv2]
    exact ⟨rfl, rfl, hlock⟩

/-- A whole run from a locked state with a bounded kernel: the lock
survives and every result is zero. -/
theorem runFilter_locked (hav : Hav)
    (hb : ∀ a b c d, hav a b c d ≤ STATIONARY_LOCK_RELEASE_METERS) :
    ∀ (inputs : List SampleInput) (s : GPSFilterState),
      s.isStationaryLocked = true →
      (∀ r ∈ (runFilter hav s inputs).1, r.distance = 0 ∧ r.isMoving = false) ∧
      (runFilter hav s inputs).2.isStationaryLocked = true
  | [], s, hlock => by
      simp only [runFilter]
      exact ⟨fun r hr => absurd hr (List.not_mem_nil r), hlock⟩
  | i :: rest, s, hlock => by
      have hstep := processPoint_locked_step hav hb s hlock i.latitude i.longitude
        i.timestamp i.accuracy i.speed i.motionConfidence
      have hrest := runFilter_locked hav hb rest
        (processPoint hav s i.latitude i.longitude i.timestamp i.accuracy i.speed
          i.motionConfidence).2 hstep.2.2
      simp only [runFilter]
      refine ⟨?_, hrest.2⟩
      intro r hr
      rcases List.mem_cons.mp hr with h | h
      · subst h; exact ⟨hstep.1, hstep.2.1⟩
      · exact hrest.1 r h

theorem totalOf_eq_zero {rs : List ProcessResult}
    (h : ∀ r ∈ rs, r.distance = 0) : totalOf rs = 0 := by
  unfold totalOf
  apply List.sum_eq_zero
  intro x hx
  rcases List.mem_map.mp hx with ⟨r, hr, rfl⟩
  exact h r hr

/-- C1: the gate starts locked; while it is locked processPoint returns
distance 0 and isMoving false; while a dwell center is recorded and the
filtered position is within the dwell radius the same holds; and a
stream whose distances can never exceed the 15 m release threshold (as
for samples clustered within a 5 m radius) keeps the gate locked
forever, so every call returns 0 / not-moving and the accumulated total
is 0 regardless of sample count. -/
theorem C1_locked_and_dwell_zero :
    initState.isStationaryLocked = true ∧
    (∀ (hav : Hav) (s : GPSFilterState) (filtered : ℚ × ℚ) (point : FilteredPoint)
        (timestamp acc : ℚ), s.isStationaryLocked = true →
      (postLockPhase hav s filtered point timestamp acc).1.distance = 0 ∧
      (postLockPhase hav s filtered point timestamp acc).1.isMoving = false) ∧
    (∀ (hav : Hav) (s : GPSFilterState) (filtered : ℚ × ℚ) (point : FilteredPoint)
        (timestamp acc : ℚ) (c : ℚ × ℚ), s.isStationaryLocked = false →
      s.dwellCenter = some c →
      haversineDistance hav c.1 c.2 filtered.1 filtered.2 < DWELL_RADIUS_METERS →
      (postLockPhase hav s filtered point timestamp acc).1.distance = 0 ∧
      (postLockPhase hav s filtered point timestamp acc).1.isMoving = false) ∧
    (∀ hav : Hav, (∀ a b c d, hav a b c d ≤ STATIONARY_LOCK_RELEASE_METERS) →
      ∀ inputs : List SampleInput,
        (∀ r ∈ (runFilter hav initState inputs).1, r.distance = 0 ∧ r.isMoving = false) ∧
        totalOf (runFilter hav initState inputs).1 = 0) := by
  refine ⟨rfl, ?_, ?_, ?_⟩
  · intro hav s filtered point timestamp acc hlock
    rw [postLockPhase_locked_result hav s filtered point timestamp acc hlock]
    exact ⟨rfl, rfl⟩
  · intro hav s filtered point timestamp acc c hlock hdc hdist
    simp only [postLockPhase, hlock, Bool.false_eq_true, if_false, hdc, hdist, if_true]
    exact ⟨rfl, rfl⟩
  · intro hav hb inputs
    have h := runFilter_locked hav hb inputs initState rfl
    exact ⟨h.1, totalOf_eq_zero fun r hr => (h.1 r hr).1⟩

/-- Witness for C1: a locked state, a dwelling unlocked state, and a
concrete two-sample run under the zero kernel. -/
theorem C1_witness :
    ((postLockPhase hav0 initState (1, 1) ⟨1, 1, 0, 10, 1, false, 0, 1, 1⟩ 0 10).1.distance
        = 0 ∧
      (postLockPhase hav0 initState (1, 1) ⟨1, 1, 0, 10, 1, false, 0, 1, 1⟩ 0
          10).1.isMoving = false) ∧
    ((postLockPhase hav0
        { initState with isStationaryLocked := false, dwellCenter := some (1, 1) }
        (1, 1) ⟨1, 1, 0, 10, 1, false, 0, 1, 1⟩ 0 10).1.distance = 0 ∧
      (postLockPhase hav0
        { initState with isStationaryLocked := false, dwellCenter := some (1, 1) }
        (1, 1) ⟨1, 1, 0, 10, 1, false, 0, 1, 1⟩ 0 10).1.isMoving = false) ∧
    totalOf (runFilter hav0 initState
      [⟨some 1, some 1, 0, some 10, some 1, 4/5⟩,
       ⟨some 1, some 1, 5000, some 10, some 1, 4/5⟩]).1 = 0 := by
  have hb : ∀ a b c d, hav0 a b c d ≤ STATIONARY_LOCK_RELEASE_METERS := by
    intro a b c d
    norm_num [hav0, STATIONARY_LOCK_RELEASE_METERS]
  refine ⟨?_, ?_, ?_⟩
  · exact C1_locked_and_dwell_zero.2.1 hav0 initState (1, 1)
      ⟨1, 1, 0, 10, 1, false, 0, 1, 1⟩ 0 10 rfl
  · refine C1_locked_and_dwell_zero.2.2.1 hav0
      { initState with isStationaryLocked := false, dwellCenter := some (1, 1) }
      (1, 1) ⟨1, 1, 0, 10, 1, false, 0, 1, 1⟩ 0 10 (1, 1) rfl rfl ?_
    norm_num [haversineDistance, isValidCoordinate, hav0, DWELL_RADIUS_METERS]
  · exact (C1_locked_and_dwell_zero.2.2.2 hav0 hb
      [⟨some 1, some 1, 0, some 10, some 1, 4/5⟩,
       ⟨some 1, some 1, 5000, some 10, some 1, 4/5⟩]).2

/-- C10: the implied-speed plausibility check runs only when the current
timestamp is strictly later than the last accepted point's; when the
elapsed time is zero or negative the check is bypassed and the segment
is accepted whenever the remaining checks pass, no matter how long it
is.  The second conjunct shows the check is enforced whenever the
elapsed time is strictly positive and the implied speed is implausible. -/
theorem C10_speed_check_only_forward (hav : Hav) (s : GPSFilterState)
    (filtered : ℚ × ℚ) (point : FilteredPoint) (ts acc : ℚ) (lvp : FilteredPoint)
    (hlvp : s.lastValidPoint = some lvp)
    (hvar : ¬ (calculatePositionVarianceSq hav s.recentPositions <
      MAX_STATIONARY_VARIANCE * MAX_STATIONARY_VARIANCE ∧ 5 ≤ s.recentPositions.length))
    (hseg : MIN_SEGMENT_METERS ≤
      haversineDistance hav lvp.latitude lvp.longitude filtered.1 filtered.2) :
    (ts ≤ lvp.timestamp → acc ≤ MIN_ACCURACY_METERS →
      CONSECUTIVE_MOVING_THRESHOLD ≤ s.consecutiveMovingCount →
      (segmentPhase hav s filtered point ts acc).1.distance =
        haversineDistance hav lvp.latitude lvp.longitude filtered.1 filtered.2 / 1000 ∧
      (segmentPhase hav s filtered point ts acc).1.isMoving = true) ∧
    (0 < (ts - lvp.timestamp) / 1000 →
      (55 < haversineDistance hav lvp.latitude lvp.longitude filtered.1 filtered.2 /
          ((ts - lvp.timestamp) / 1000) ∨
        haversineDistance hav lvp.latitude lvp.longitude filtered.1 filtered.2 /
          ((ts - lvp.timestamp) / 1000) < 1/2) →
      (segmentPhase hav s filtered point ts acc).1.distance = 0 ∧
      (segmentPhase hav s filtered point ts acc).2 = s) := by
  constructor
  · intro hts hacc hcount
    have htd : ¬ (0 < (ts - lvp.timestamp) / 1000 ∧
        (55 < haversineDistance hav lvp.latitude lvp.longitude filtered.1 filtered.2 /
            ((ts - lvp.timestamp) / 1000) ∨
          haversineDistance hav lvp.latitude lvp.longitude filtered.1 filtered.2 /
            ((ts - lvp.timestamp) / 1000) < 1/2)) := by
      rintro ⟨hpos, -⟩
      have : (ts - lvp.timestamp) / 1000 ≤ 0 := by
        apply div_nonpos_of_nonpos_of_nonneg
        · linarith
        · norm_num
      linarith
    simp only [segmentPhase, if_neg hvar, hlvp, if_neg (not_lt.mpr hseg), if_neg htd,
      if_neg (not_lt.mpr hacc), if_neg (Nat.not_lt.mpr hcount)]
    exact ⟨by trivial, by trivial⟩
  · intro hpos hrange
    simp only [segmentPhase, if_neg hvar, hlvp, if_neg (not_lt.mpr hseg),
      if_pos (And.intro hpos hrange)]
    exact ⟨by trivial, by trivial⟩

def havBig : Hav := fun _ _ _ _ => 1000000

def c10lvp : FilteredPoint := ⟨0, 0, 1000, 10, 1, false, 0, 0, 0⟩

def c10state : GPSFilterState :=
  { initState with lastValidPoint := some c10lvp, consecutiveMovingCount := 2 }

def c10point : FilteredPoint := ⟨1, 1, 1000, 10, 1, false, 0, 1, 1⟩

/-- Witness for C10: a 1000 km segment with a non-advancing timestamp is
accepted (speed check bypassed), and the same segment with a positive
elapsed time is rejected for implausible speed. -/
theorem C10_witness :
    (segmentPhase havBig c10state (1, 1) c10point 1000 10).1.distance =
      haversineDistance havBig 0 0 1 1 / 1000 ∧
    (segmentPhase havBig c10state (1, 1) c10point 1000 10).1.isMoving = true ∧
    (segmentPhase havBig c10state (1, 1) c10point 2000 10).1.distance = 0 := by
  have hvar : ¬ (calculatePositionVarianceSq havBig c10state.recentPositions <
      MAX_STATIONARY_VARIANCE * MAX_STATIONARY_VARIANCE ∧
      5 ≤ c10state.recentPositions.length) := by
    rintro ⟨-, hlen⟩
    simp [c10state, initState] at hlen
  have hseg : MIN_SEGMENT_METERS ≤
      haversineDistance havBig c10lvp.latitude c10lvp.longitude (1, (1:ℚ)).1 (1, (1:ℚ)).2 := by
    norm_num [haversineDistance, isValidCoordinate, MIN_SEGMENT_METERS, havBig, c10lvp]
  have hlvp : c10state.lastValidPoint = some c10lvp := rfl
  have h1 := (C10_speed_check_only_forward havBig c10state (1, 1) c10point 1000 10
    c10lvp hlvp hvar hseg).1
    (by norm_num [c10lvp]) (by norm_num [MIN_ACCURACY_METERS])
    (by norm_num [CONSECUTIVE_MOVING_THRESHOLD, c10state, initState])
  have h2 := ((C10_speed_check_only_forward havBig c10state (1, 1) c10point 2000 10
    c10lvp hlvp hvar hseg).2
    (by norm_num [c10lvp])
    (by left; norm_num [haversineDistance, isValidCoordinate, havBig, c10lvp])).1
  refine ⟨?_, h1.2, h2⟩
  have := h1.1
  simpa [c10lvp] using this

theorem segmentPhase_recent (hav : Hav) (s : GPSFilterState) (filtered : ℚ × ℚ)
    (point : FilteredPoint) (ts acc : ℚ) :
    (segmentPhase hav s filtered point ts acc).2.recentPositions = s.recentPositions := by
  simp only [segmentPhase]
  split
  · rfl
  · split
    · rfl
    · split_ifs <;> rfl

theorem postLockPhase_recent (hav : Hav) (s : GPSFilterState) (filtered : ℚ × ℚ)
    (point : FilteredPoint) (ts acc : ℚ) :
    (postLockPhase hav s filtered point ts acc).2.recentPositions = s.recentPositions := by
  simp only [postLockPhase]
  split
  · split_ifs <;> rfl
  · split
    · split
      · rfl
      · simpa using segmentPhase_recent hav { s with dwellCenter := none } filtered point ts acc
    · exact segmentPhase_recent hav s filtered point ts acc

theorem tail_concat_getLast {α : Type} (l : List α) (x : α) (h : 1 < (l ++ [x]).length) :
    (l ++ [x]).tail.getLast? = some x := by
  cases l with
  | nil => simp at h
  | cons a rest => simp [List.getLast?_concat]

theorem preLockUpdate_recent_getLast (s : GPSFilterState)
    (rawLat rawLon ts acc spd conf : ℚ) :
    (preLockUpdate s rawLat rawLon ts acc spd conf).2.2.recentPositions.getLast? =
      some ⟨(preLockUpdate s rawLat rawLon ts acc spd conf).1.1,
            (preLockUpdate s rawLat rawLon ts acc spd conf).1.2, ts⟩ := by
  simp only [preLockUpdate, VARIANCE_WINDOW_SIZE]
  split_ifs <;>
    first
      | exact List.getLast?_concat _
      | exact tail_concat_getLast _ _ (by omega)

/-- A rejected streaming segment (zero distance while an anchor exists)
leaves the whole filter state untouched. -/
theorem segmentPhase_zero_frame (hav : Hav) (s : GPSFilterState) (filtered : ℚ × ℚ)
    (point : FilteredPoint) (ts acc : ℚ) (lvp : FilteredPoint)
    (hlvp : s.lastValidPoint = some lvp)
    (hz : (segmentPhase hav s filtered point ts acc).1.distance = 0) :
    (segmentPhase hav s filtered point ts acc).2 = s := by
  by_cases h1 : calculatePositionVarianceSq hav s.recentPositions <
      MAX_STATIONARY_VARIANCE * MAX_STATIONARY_VARIANCE ∧ 5 ≤ s.recentPositions.length
  · simp only [segmentPhase, if_pos h1]
  · simp only [segmentPhase, if_neg h1, hlvp] at hz ⊢
    by_cases h2 : haversineDistance hav lvp.latitude lvp.longitude filtered.1 filtered.2 <
        MIN_SEGMENT_METERS
    · simp only [if_pos h2]
    · simp only [if_neg h2] at hz ⊢
      split_ifs at hz ⊢ <;> try rfl
      exfalso
      have hge : MIN_SEGMENT_METERS ≤
          haversineDistance hav lvp.latitude lvp.longitude filtered.1 filtered.2 :=
        not_lt.mp h2
      have hpos : (0:ℚ) <
          haversineDistance hav lvp.latitude lvp.longitude filtered.1 filtered.2 / 1000 := by
        apply div_pos
        · have : (0:ℚ) < MIN_SEGMENT_METERS := by norm_num [MIN_SEGMENT_METERS]
          linarith
        · norm_num
      simp only [ProcessResult.distance] at hz
      linarith [hz, hpos]

theorem batchPush_getLast (st : BatchState) (p : GPSPoint) :
    (batchPush st p).getLast? = some p := by
  unfold batchPush
  simp only [BATCH_VARIANCE_WINDOW]
  split_ifs with h
  · exact tail_concat_getLast _ _ (by omega)
  · exact List.getLast?_concat _

/-- C6 (amended): in the streaming accumulator every candidate segment
failing one of the validation steps contributes 0, leaves the entire
state (anchor included) unchanged, and the current sample remains in the
recent-position window, which every valid sample enters before the
checks run.  In the batch recomputer the same holds for the variance
floor, minimum-segment and implied-speed checks, but a sample failing
the consecutive-moving debounce advances the anchor to itself, and a
sample failing the accuracy ceiling is skipped without being buffered. -/
theorem C6_rejection_frame (hav : Hav) :
    (∀ (s : GPSFilterState) (filtered : ℚ × ℚ) (point : FilteredPoint) (ts acc : ℚ)
        (lvp : FilteredPoint), s.lastValidPoint = some lvp →
      (segmentPhase hav s filtered point ts acc).1.distance = 0 →
      (segmentPhase hav s filtered point ts acc).2 = s) ∧
    (∀ (s : GPSFilterState) (lat lon ts conf : ℚ) (a sp : Option ℚ),
      isValidCoordinate lat lon = true →
      (processPoint hav s (some lat) (some lon) ts a sp conf).2.recentPositions =
        (preLockUpdate s lat lon ts (a.getD 20) (sp.getD 0) conf).2.2.recentPositions ∧
      (preLockUpdate s lat lon ts (a.getD 20) (sp.getD 0) conf).2.2.recentPositions.getLast? =
        some ⟨(preLockUpdate s lat lon ts (a.getD 20) (sp.getD 0) conf).1.1,
              (preLockUpdate s lat lon ts (a.getD 20) (sp.getD 0) conf).1.2, ts⟩) ∧
    (∀ (st : BatchState) (p : GPSPoint),
      ¬ (p.latitude = 0 ∧ p.longitude = 0) →
      isValidCoordinate p.latitude p.longitude = true →
      p.accuracy.getD 20 ≤ BATCH_MAX_ACCURACY_METERS →
      calculateVarianceSq hav (batchPush st p) <
          BATCH_MAX_VARIANCE_METERS * BATCH_MAX_VARIANCE_METERS ∧
        5 ≤ (batchPush st p).length →
      (batchStep hav st p).totalDistance = st.totalDistance ∧
      (batchStep hav st p).lastValidPoint = st.lastValidPoint ∧
      (batchStep hav st p).recentPoints.getLast? = some p) ∧
    (∀ (st : BatchState) (p : GPSPoint) (lvp : GPSPoint),
      ¬ (p.latitude = 0 ∧ p.longitude = 0) →
      isValidCoordinate p.latitude p.longitude = true →
      p.accuracy.getD 20 ≤ BATCH_MAX_ACCURACY_METERS →
      ¬ (calculateVarianceSq hav (batchPush st p) <
          BATCH_MAX_VARIANCE_METERS * BATCH_MAX_VARIANCE_METERS ∧
        5 ≤ (batchPush st p).length) →
      ¬ p.isStationary = some true →
      ¬ st.movingCount + 1 < 3 →
      st.lastValidPoint = some lvp →
      (haversineDistance hav lvp.latitude lvp.longitude p.latitude p.longitude <
          BATCH_MIN_SEGMENT_METERS ∨
        (0 < (p.timestamp - lvp.timestamp) / (1000 * 60 * 60) ∧
          (haversineDistance hav lvp.latitude lvp.longitude p.latitude p.longitude / 1000 /
              ((p.timestamp - lvp.timestamp) / (1000 * 60 * 60)) < BATCH_MIN_SPEED_KMH ∨
            BATCH_MAX_SPEED_KMH <
              haversineDistance hav lvp.latitude lvp.longitude p.latitude p.longitude / 1000 /
                ((p.timestamp - lvp.timestamp) / (1000 * 60 * 60))))) →
      (batchStep hav st p).totalDistance = st.totalDistance ∧
      (batchStep hav st p).lastValidPoint = some lvp ∧
      (batchStep hav st p).recentPoints.getLast? = some p) ∧
    (∀ (st : BatchState) (p : GPSPoint),
      ¬ (p.latitude = 0 ∧ p.longitude = 0) →
      isValidCoordinate p.latitude p.longitude = true →
      p.accuracy.getD 20 ≤ BATCH_MAX_ACCURACY_METERS →
      ¬ (calculateVarianceSq hav (batchPush st p) <
          BATCH_MAX_VARIANCE_METERS * BATCH_MAX_VARIANCE_METERS ∧
        5 ≤ (batchPush st p).length) →
      ¬ p.isStationary = some true →
      st.movingCount + 1 < 3 →
      (batchStep hav st p).totalDistance = st.totalDistance ∧
      (batchStep hav st p).lastValidPoint = some p) ∧
    (∀ (st : BatchState) (p : GPSPoint),
      ¬ (p.latitude = 0 ∧ p.longitude = 0) →
      isValidCoordinate p.latitude p.longitude = true →
      BATCH_MAX_ACCURACY_METERS < p.accuracy.getD 20 →
      batchStep hav st p = st) := by
  refine ⟨?_, ?_, ?_, ?_, ?_, ?_⟩
  · exact segmentPhase_zero_frame hav
  · intro s lat lon ts conf a sp hv
    constructor
    · simp only [processPoint, hv, if_true]
      rw [postLockPhase_recent, (checkStationaryLock_frame hav _).2.2.1]
    · exact preLockUpdate_recent_getLast s lat lon ts (a.getD 20) (sp.getD 0) conf
  · intro st p h00 hv hacc hvarskip
    simp only [batchStep, if_neg h00, hv, eq_self_iff_true, not_true, if_false,
      if_neg (not_lt.mpr hacc), if_pos hvarskip]
    exact ⟨by trivial, by trivial, batchPush_getLast st p⟩
  · intro st p lvp h00 hv hacc hvarskip hstn hmv hlvp hrej
    simp only [batchStep, if_neg h00, hv, eq_self_iff_true, not_true, if_false,
      if_neg (not_lt.mpr hacc), if_neg hvarskip, if_neg hstn, if_neg hmv, hlvp]
    by_cases hs : haversineDistance hav lvp.latitude lvp.longitude p.latitude p.longitude <
        BATCH_MIN_SEGMENT_METERS
    · simp only [if_pos hs]
      exact ⟨by trivial, by trivial, batchPush_getLast st p⟩
    · rcases hrej with hseg | hspeed
      · exact absurd hseg hs
      · simp only [if_neg hs, if_pos hspeed]
        exact ⟨by trivial, by trivial, batchPush_getLast st p⟩
  · intro st p h00 hv hacc hvarskip hstn hmv
    simp only [batchStep, if_neg h00, hv, eq_self_iff_true, not_true, if_false,
      if_neg (not_lt.mpr hacc), if_neg hvarskip, if_neg hstn, if_pos hmv]
    exact ⟨by trivial, by trivial⟩
  · intro st p h00 hv hacc
    simp only [batchStep, if_neg h00, hv, eq_self_iff_true, not_true, if_false,
      if_pos hacc]

def c6q : GPSPoint := ⟨5, 5, 0, none, none⟩

def c6p : GPSPoint := ⟨6, 6, 1000, none, none⟩

def c6pA : GPSPoint := ⟨6, 6, 1000, some 100, none⟩

def c6stC : BatchState := { initBatchState with lastValidPoint := some c6q }

/-- C6 counterexample: in the batch recomputer, a point failing the
consecutive-moving debounce (movingCount still below 3) contributes 0
yet ADVANCES the last-accepted anchor to itself, and a point failing the
accuracy ceiling is not added to the variance buffer at all — both
contradicting the claim that failures at steps 2-6 never change the
anchor while the point is still buffered. -/
theorem C6_counterexample :
    (batchStep hav0 c6stC c6p).totalDistance = c6stC.totalDistance ∧
    (batchStep hav0 c6stC c6p).movingCount < 3 ∧
    (batchStep hav0 c6stC c6p).lastValidPoint ≠ c6stC.lastValidPoint ∧
    batchStep hav0 initBatchState c6pA = initBatchState ∧
    c6pA ∉ (batchStep hav0 initBatchState c6pA).recentPoints := by
  norm_num [batchStep, batchPush, c6stC, c6p, c6q, c6pA, initBatchState,
    isValidCoordinate, calculateVarianceSq, hav0, BATCH_MAX_ACCURACY_METERS,
    BATCH_VARIANCE_WINDOW, BATCH_MAX_VARIANCE_METERS, BATCH_MIN_SEGMENT_METERS]
  simp

def c6sStream : GPSFilterState := { initState with lastValidPoint := some c10lvp }

def c6stB1 : BatchState :=
  { initBatchState with recentPoints :=
      [⟨1, 1, 1000, none, none⟩, ⟨1, 1, 2000, none, none⟩,
       ⟨1, 1, 3000, none, none⟩, ⟨1, 1, 4000, none, none⟩] }

def c6stB2 : BatchState :=
  { initBatchState with lastValidPoint := some c6q, movingCount := 2 }

/-- Witness for the amended C6 at concrete rejected segments of every
category. -/
theorem C6_witness :
    (segmentPhase hav0 c6sStream (1, 1) c10point 1000 10).2 = c6sStream ∧
    ((processPoint hav0 initState (some 1) (some 1) 0 (some 10) (some 1)
        (4/5)).2.recentPositions =
      (preLockUpdate initState 1 1 0 ((some (10:ℚ)).getD 20) ((some (1:ℚ)).getD 0)
        (4/5)).2.2.recentPositions) ∧
    ((batchStep hav0 c6stB1 c6p).totalDistance = c6stB1.totalDistance ∧
      (batchStep hav0 c6stB1 c6p).lastValidPoint = c6stB1.lastValidPoint ∧
      (batchStep hav0 c6stB1 c6p).recentPoints.getLast? = some c6p) ∧
    ((batchStep hav0 c6stB2 c6p).totalDistance = c6stB2.totalDistance ∧
      (batchStep hav0 c6stB2 c6p).lastValidPoint = some c6q ∧
      (batchStep hav0 c6stB2 c6p).recentPoints.getLast? = some c6p) ∧
    ((batchStep hav0 c6stC c6p).totalDistance = c6stC.totalDistance ∧
      (batchStep hav0 c6stC c6p).lastValidPoint = some c6p) ∧
    batchStep hav0 initBatchState c6pA = initBatchState := by
  have hvalid66 : isValidCoordinate c6p.latitude c6p.longitude = true := by
    norm_num [isValidCoordinate, c6p]
  have h00 : ¬ (c6p.latitude = 0 ∧ c6p.longitude = 0) := by
    norm_num [c6p]
  have haccp : c6p.accuracy.getD 20 ≤ BATCH_MAX_ACCURACY_METERS := by
    norm_num [c6p, BATCH_MAX_ACCURACY_METERS]
  refine ⟨?_, ?_, ?_, ?_, ?_, ?_⟩
  · refine (C6_rejection_frame hav0).1 c6sStream (1, 1) c10point 1000 10 c10lvp rfl ?_
    norm_num [segmentPhase, calculatePositionVarianceSq, c6sStream, initState, c10lvp,
      haversineDistance, isValidCoordinate, hav0, MIN_SEGMENT_METERS,
      MAX_STATIONARY_VARIANCE, zeroResult]
  · exact ((C6_rejection_frame hav0).2.1 initState 1 1 0 (4/5) (some 10) (some 1)
      (by norm_num [isValidCoordinate])).1
  · refine (C6_rejection_frame hav0).2.2.1 c6stB1 c6p h00 hvalid66 haccp ?_
    constructor
    · norm_num [calculateVarianceSq, batchPush, c6stB1, c6p, initBatchState,
        haversineDistance, isValidCoordinate, hav0, BATCH_VARIANCE_WINDOW,
        BATCH_MAX_VARIANCE_METERS]
    · norm_num [batchPush, c6stB1, c6p, initBatchState, BATCH_VARIANCE_WINDOW]
  · refine (C6_rejection_frame hav0).2.2.2.1 c6stB2 c6p c6q h00 hvalid66 haccp ?_ ?_ ?_ rfl ?_
    · rintro ⟨-, hlen⟩
      norm_num [batchPush, c6stB2, c6p, initBatchState, BATCH_VARIANCE_WINDOW] at hlen
    · exact fun h => Option.noConfusion h
    · norm_num [c6stB2, initBatchState]
    · left
      norm_num [haversineDistance, isValidCoordinate, hav0, c6q, c6p,
        BATCH_MIN_SEGMENT_METERS]
  · refine (C6_rejection_frame hav0).2.2.2.2.1 c6stC c6p h00 hvalid66 haccp ?_ ?_ ?_
    · rintro ⟨-, hlen⟩
      norm_num [batchPush, c6stC, c6p, initBatchState, BATCH_VARIANCE_WINDOW] at hlen
    · exact fun h => Option.noConfusion h
    · norm_num [c6stC, initBatchState]
  · refine (C6_rejection_frame hav0).2.2.2.2.2 initBatchState c6pA ?_ ?_ ?_
    · norm_num [c6pA]
    · norm_num [isValidCoordinate, c6pA]
    · norm_num [c6pA, BATCH_MAX_ACCURACY_METERS]

/-!  Sorting development for the batch recomputer (claim C3). -/

/-- The timestamp order used by the pre-sort comparator. -/
def tsLE : GPSPoint → GPSPoint → Prop := fun a b => a.timestamp ≤ b.timestamp

theorem insertByTimestamp_perm (p : GPSPoint) (l : List GPSPoint) :
    (insertByTimestamp p l).Perm (p :: l) := by
  induction l with
  | nil => simp [insertByTimestamp]
  | cons q rest ih =>
      simp only [insertByTimestamp]
      split_ifs with h
      · exact (ih.cons q).trans (List.Perm.swap p q rest)
      · exact List.Perm.refl _

theorem sortByTimestamp_perm (l : List GPSPoint) : (sortByTimestamp l).Perm l := by
  induction l with
  | nil => simp [sortByTimestamp]
  | cons p rest ih =>
      simp only [sortByTimestamp]
      exact (insertByTimestamp_perm p (sortByTimestamp rest)).trans (ih.cons p)

theorem mem_insertByTimestamp {x p : GPSPoint} {l : List GPSPoint}
    (h : x ∈ insertByTimestamp p l) : x = p ∨ x ∈ l := by
  have := (insertByTimestamp_perm p l).mem_iff.mp h
  exact List.mem_cons.mp this

theorem insertByTimestamp_sorted {p : GPSPoint} {l : List GPSPoint}
    (h : l.Sorted tsLE) : (insertByTimestamp p l).Sorted tsLE := by
  induction l with
  | nil => simp [insertByTimestamp, List.sorted_singleton]
  | cons q rest ih =>
      rw [List.sorted_cons] at h
      simp only [insertByTimestamp]
      split_ifs with hq
      · rw [List.sorted_cons]
        refine ⟨?_, ih h.2⟩
        intro b hb
        rcases mem_insertByTimestamp hb with rfl | hb2
        · exact le_of_lt hq
        · exact h.1 b hb2
      · rw [List.sorted_cons]
        constructor
        · intro b hb
          rcases List.mem_cons.mp hb with rfl | hb2
          · exact not_lt.mp hq
          · exact le_trans (not_lt.mp hq) (h.1 b hb2)
        · exact List.sorted_cons.mpr h

theorem sortByTimestamp_sorted (l : List GPSPoint) : (sortByTimestamp l).Sorted tsLE := by
  induction l with
  | nil => simp [sortByTimestamp]
  | cons p rest ih =>
      simp only [sortByTimestamp]
      exact insertByTimestamp_sorted ih

/-- Two sorted permutations of each other with pairwise-distinct
timestamps must be equal. -/
theorem sorted_unique {l₁ l₂ : List GPSPoint}
    (hp : l₁.Perm l₂) (h₁ : l₁.Sorted tsLE) (h₂ : l₂.Sorted tsLE)
    (hn : (l₁.map GPSPoint.timestamp).Nodup) : l₁ = l₂ := by
  letI : IsAntisymm GPSPoint (fun a b => a.timestamp < b.timestamp) :=
    ⟨fun a b h h2 => absurd (h.trans h2) (lt_irrefl _)⟩
  have hne₁ : l₁.Pairwise (fun a b => a.timestamp ≠ b.timestamp) :=
    List.pairwise_map.mp hn
  have hn₂ : (l₂.map GPSPoint.timestamp).Nodup := ((hp.map _).nodup_iff).mp hn
  have hne₂ : l₂.Pairwise (fun a b => a.timestamp ≠ b.timestamp) :=
    List.pairwise_map.mp hn₂
  have hlt₁ : l₁.Sorted (fun a b => a.timestamp < b.timestamp) :=
    (h₁.and hne₁).imp fun hab => lt_of_le_of_ne hab.1 hab.2
  have hlt₂ : l₂.Sorted (fun a b => a.timestamp < b.timestamp) :=
    (h₂.and hne₂).imp fun hab => lt_of_le_of_ne hab.1 hab.2
  exact List.eq_of_perm_of_sorted hp hlt₁ hlt₂

/-- C3 (amended): the batch recomputer is order-independent for inputs
with pairwise-distinct timestamps (the stable pre-sort then produces the
same sequence for every permutation), and it is idempotent (a pure
function of its input).  With duplicate timestamps order-independence
fails, see the counterexample. -/
theorem C3_order_independent_distinct_ts :
    (∀ (hav : Hav) (l₁ l₂ : List GPSPoint), l₁.Perm l₂ →
      (l₁.map GPSPoint.timestamp).Nodup →
      calculateFilteredDistance hav l₁ = calculateFilteredDistance hav l₂) ∧
    (∀ (hav : Hav) (l : List GPSPoint),
      calculateFilteredDistance hav l = calculateFilteredDistance hav l) := by
  refine ⟨?_, fun hav l => rfl⟩
  intro hav l₁ l₂ hp hn
  have hsort : sortByTimestamp l₁ = sortByTimestamp l₂ :=
    sorted_unique
      (((sortByTimestamp_perm l₁).trans hp).trans (sortByTimestamp_perm l₂).symm)
      (sortByTimestamp_sorted l₁) (sortByTimestamp_sorted l₂)
      (((sortByTimestamp_perm l₁).map GPSPoint.timestamp).nodup_iff.mpr hn)
  unfold calculateFilteredDistance
  rw [hp.length_eq, hsort]

theorem none_ne_some_true : ¬ (none : Option Bool) = some true :=
  fun h => Option.noConfusion h

def c3A : GPSPoint := ⟨10, 0, 1000, none, none⟩

def c3B : GPSPoint := ⟨20, 0, 1000, none, none⟩

def c3C : GPSPoint := ⟨40, 0, 1000, none, none⟩

def c3D : GPSPoint := ⟨10, 0, 1000, none, none⟩

/-- A symmetric, nondegenerate stand-in for the haversine kernel on the
counterexample's meridian points: metres proportional to the latitude
difference. -/
def havLat : Hav := fun lat1 _ lat2 _ => max (lat2 - lat1) (lat1 - lat2)

/-- C3 counterexample: with tied timestamps the stable pre-sort preserves
the input order, so two permutations of the same four points produce
different totals (1/20 km versus 3/100 km). -/
theorem C3_counterexample :
    ([c3A, c3B, c3C, c3D] : List GPSPoint).Perm [c3A, c3C, c3B, c3D] ∧
    calculateFilteredDistance havLat [c3A, c3B, c3C, c3D] = 1/20 ∧
    calculateFilteredDistance havLat [c3A, c3C, c3B, c3D] = 3/100 ∧
    (1/20 : ℚ) ≠ 3/100 := by
  have hA : batchStep havLat initBatchState c3A = ⟨0, some c3A, 0, 1, [c3A]⟩ := by
    norm_num [batchStep, batchPush, calculateVarianceSq, initBatchState, c3A, havLat, none_ne_some_true,
      haversineDistance, isValidCoordinate, BATCH_MAX_ACCURACY_METERS,
      BATCH_VARIANCE_WINDOW, BATCH_MAX_VARIANCE_METERS]
  have hB : batchStep havLat ⟨0, some c3A, 0, 1, [c3A]⟩ c3B =
      ⟨0, some c3B, 0, 2, [c3A, c3B]⟩ := by
    norm_num [batchStep, batchPush, calculateVarianceSq, c3A, c3B, havLat, none_ne_some_true,
      haversineDistance, isValidCoordinate, BATCH_MAX_ACCURACY_METERS,
      BATCH_VARIANCE_WINDOW, BATCH_MAX_VARIANCE_METERS]
  have hC : batchStep havLat ⟨0, some c3B, 0, 2, [c3A, c3B]⟩ c3C =
      ⟨1/50, some c3C, 0, 3, [c3A, c3B, c3C]⟩ := by
    norm_num [batchStep, batchPush, calculateVarianceSq, c3A, c3B, c3C, havLat, none_ne_some_true,
      haversineDistance, isValidCoordinate, BATCH_MAX_ACCURACY_METERS,
      BATCH_VARIANCE_WINDOW, BATCH_MAX_VARIANCE_METERS, BATCH_MIN_SEGMENT_METERS,
      BATCH_MIN_SPEED_KMH, BATCH_MAX_SPEED_KMH]
  have hD : batchStep havLat ⟨1/50, some c3C, 0, 3, [c3A, c3B, c3C]⟩ c3D =
      ⟨1/20, some c3D, 0, 4, [c3A, c3B, c3C, c3D]⟩ := by
    norm_num [batchStep, batchPush, calculateVarianceSq, c3A, c3B, c3C, c3D, havLat, none_ne_some_true,
      haversineDistance, isValidCoordinate, BATCH_MAX_ACCURACY_METERS,
      BATCH_VARIANCE_WINDOW, BATCH_MAX_VARIANCE_METERS, BATCH_MIN_SEGMENT_METERS,
      BATCH_MIN_SPEED_KMH, BATCH_MAX_SPEED_KMH]
  have hC2 : batchStep havLat ⟨0, some c3A, 0, 1, [c3A]⟩ c3C =
      ⟨0, some c3C, 0, 2, [c3A, c3C]⟩ := by
    norm_num [batchStep, batchPush, calculateVarianceSq, c3A, c3C, havLat, none_ne_some_true,
      haversineDistance, isValidCoordinate, BATCH_MAX_ACCURACY_METERS,
      BATCH_VARIANCE_WINDOW, BATCH_MAX_VARIANCE_METERS]
  have hB2 : batchStep havLat ⟨0, some c3C, 0, 2, [c3A, c3C]⟩ c3B =
      ⟨1/50, some c3B, 0, 3, [c3A, c3C, c3B]⟩ := by
    norm_num [batchStep, batchPush, calculateVarianceSq, c3A, c3B, c3C, havLat, none_ne_some_true,
      haversineDistance, isValidCoordinate, BATCH_MAX_ACCURACY_METERS,
      BATCH_VARIANCE_WINDOW, BATCH_MAX_VARIANCE_METERS, BATCH_MIN_SEGMENT_METERS,
      BATCH_MIN_SPEED_KMH, BATCH_MAX_SPEED_KMH]
  have hD2 : batchStep havLat ⟨1/50, some c3B, 0, 3, [c3A, c3C, c3B]⟩ c3D =
      ⟨3/100, some c3D, 0, 4, [c3A, c3C, c3B, c3D]⟩ := by
    norm_num [batchStep, batchPush, calculateVarianceSq, c3A, c3B, c3C, c3D, havLat, none_ne_some_true,
      haversineDistance, isValidCoordinate, BATCH_MAX_ACCURACY_METERS,
      BATCH_VARIANCE_WINDOW, BATCH_MAX_VARIANCE_METERS, BATCH_MIN_SEGMENT_METERS,
      BATCH_MIN_SPEED_KMH, BATCH_MAX_SPEED_KMH]
  have hsort1 : sortByTimestamp [c3A, c3B, c3C, c3D] = [c3A, c3B, c3C, c3D] := by
    norm_num [sortByTimestamp, insertByTimestamp, c3A, c3B, c3C, c3D]
  have hsort2 : sortByTimestamp [c3A, c3C, c3B, c3D] = [c3A, c3C, c3B, c3D] := by
    norm_num [sortByTimestamp, insertByTimestamp, c3A, c3B, c3C, c3D]
  refine ⟨List.Perm.cons c3A (List.Perm.swap c3C c3B [c3D]), ?_, ?_, by norm_num⟩
  · show calculateFilteredDistance havLat [c3A, c3B, c3C, c3D] = 1/20
    unfold calculateFilteredDistance
    rw [if_neg (by norm_num), hsort1]
    simp only [List.foldl_cons, List.foldl_nil, hA, hB, hC, hD]
  · show calculateFilteredDistance havLat [c3A, c3C, c3B, c3D] = 3/100
    unfold calculateFilteredDistance
    rw [if_neg (by norm_num), hsort2]
    simp only [List.foldl_cons, List.foldl_nil, hA, hC2, hB2, hD2]

/-- Witness for the amended C3 at two distinct-timestamp permutations. -/
theorem C3_witness :
    ([⟨10, 0, 1000, none, none⟩, ⟨20, 0, 2000, none, none⟩] : List GPSPoint).Perm
      [⟨20, 0, 2000, none, none⟩, ⟨10, 0, 1000, none, none⟩] ∧
    (([⟨10, 0, 1000, none, none⟩, ⟨20, 0, 2000, none, none⟩] : List GPSPoint).map
      GPSPoint.timestamp).Nodup ∧
    calculateFilteredDistance havLat
        [⟨10, 0, 1000, none, none⟩, ⟨20, 0, 2000, none, none⟩] =
      calculateFilteredDistance havLat
        [⟨20, 0, 2000, none, none⟩, ⟨10, 0, 1000, none, none⟩] := by
  have hperm : ([⟨10, 0, 1000, none, none⟩, ⟨20, 0, 2000, none, none⟩] :
      List GPSPoint).Perm [⟨20, 0, 2000, none, none⟩, ⟨10, 0, 1000, none, none⟩] :=
    List.Perm.swap _ _ []
  have hnd : (([⟨10, 0, 1000, none, none⟩, ⟨20, 0, 2000, none, none⟩] :
      List GPSPoint).map GPSPoint.timestamp).Nodup := by
    norm_num [List.nodup_cons]
  exact ⟨hperm, hnd, C3_order_independent_distinct_ts.1 havLat _ _ hperm hnd⟩

/-- C9 (amended): once at least three samples are buffered, the motion
classifier blends 60/40 toward the inertial confidence whenever one is
supplied AND strictly positive; a missing or non-positive (for example
exactly 0) inertial confidence makes it use the GPS-geometry confidence
alone; the returned confidence is always 0.5 times the previous smoothed
value plus 0.5 times the raw fused value. -/
theorem C9_fusion_and_smoothing (hav : Hav) (st : MotionAnalyzerState)
    (location : GPSLocationForMotion) :
    ∀ buf : List GPSLocationForMotion,
      buf = (if GPS_BUFFER_SIZE < (st.buffer ++ [location]).length
        then (st.buffer ++ [location]).tail else st.buffer ++ [location]) →
      ¬ buf.length < 3 →
      ((∀ ac : ℚ, 0 < ac →
        (analyzeGPSMotion hav st location (some ac)).1.motionConfidence =
          st.smoothedConfidence * (1/2) +
            (gpsGeometryConfidence hav buf location * (2/5) + ac * (3/5)) * (1/2)) ∧
       (analyzeGPSMotion hav st location none).1.motionConfidence =
          st.smoothedConfidence * (1/2) +
            gpsGeometryConfidence hav buf location * (1/2) ∧
       (∀ ac : ℚ, ac ≤ 0 →
        (analyzeGPSMotion hav st location (some ac)).1.motionConfidence =
          st.smoothedConfidence * (1/2) +
            gpsGeometryConfidence hav buf location * (1/2))) := by
  intro buf hbuf hlen
  subst hbuf
  refine ⟨?_, ?_, ?_⟩
  · intro ac hac
    simp only [analyzeGPSMotion, if_neg hlen, if_pos hac]
  · simp only [analyzeGPSMotion, if_neg hlen]
  · intro ac hac
    simp only [analyzeGPSMotion, if_neg hlen, if_neg (not_lt.mpr hac)]

def c9loc1 : GPSLocationForMotion := ⟨0, 0, 1000, none, none, none⟩

def c9loc2 : GPSLocationForMotion := ⟨0, 0, 2000, none, none, none⟩

def c9loc3 : GPSLocationForMotion := ⟨0, 0, 3000, none, some 1, none⟩

def c9state : MotionAnalyzerState := ⟨[c9loc1, c9loc2], 0⟩

/-- C9 counterexample: with a supplied inertial confidence of exactly 0
the code does NOT blend (it requires a strictly positive value): the GPS
geometry confidence is 4/5, the returned value is 0.5·0 + 0.5·(4/5) =
2/5, not the 0.5·0 + 0.5·(0.6·0 + 0.4·(4/5)) = 4/25 the claimed
blend-whenever-available rule would give. -/
theorem C9_counterexample :
    gpsGeometryConfidence hav0 (c9state.buffer ++ [c9loc3]) c9loc3 = 4/5 ∧
    (analyzeGPSMotion hav0 c9state c9loc3 (some 0)).1.motionConfidence = 2/5 ∧
    (2/5 : ℚ) ≠ 0 * (1/2) + ((4/5) * (2/5) + 0 * (3/5)) * (1/2) := by
  refine ⟨?_, ?_, by norm_num⟩
  · norm_num [gpsGeometryConfidence, pathDistance, jsOrDefault, c9state, c9loc1,
      c9loc2, c9loc3, hav0]
  · norm_num [analyzeGPSMotion, gpsGeometryConfidence, pathDistance, jsOrDefault,
      c9state, c9loc1, c9loc2, c9loc3, hav0, GPS_BUFFER_SIZE]

/-- Witness for the amended C9 at the concrete three-sample buffer:
positive inertial confidence 1/2 is blended 60/40, a missing or zero
inertial confidence leaves the GPS-geometry confidence alone. -/
theorem C9_witness :
    ((analyzeGPSMotion hav0 c9state c9loc3 (some (1/2))).1.motionConfidence =
      c9state.smoothedConfidence * (1/2) +
        (gpsGeometryConfidence hav0 (c9state.buffer ++ [c9loc3]) c9loc3 * (2/5) +
          (1/2) * (3/5)) * (1/2)) ∧
    ((analyzeGPSMotion hav0 c9state c9loc3 none).1.motionConfidence =
      c9state.smoothedConfidence * (1/2) +
        gpsGeometryConfidence hav0 (c9state.buffer ++ [c9loc3]) c9loc3 * (1/2)) ∧
    ((analyzeGPSMotion hav0 c9state c9loc3 (some 0)).1.motionConfidence =
      c9state.smoothedConfidence * (1/2) +
        gpsGeometryConfidence hav0 (c9state.buffer ++ [c9loc3]) c9loc3 * (1/2)) := by
  have hbuf : (c9state.buffer ++ [c9loc3] : List GPSLocationForMotion) =
      (if GPS_BUFFER_SIZE < (c9state.buffer ++ [c9loc3]).length
        then (c9state.buffer ++ [c9loc3]).tail else c9state.buffer ++ [c9loc3]) := by
    norm_num [c9state, GPS_BUFFER_SIZE]
  have hlen : ¬ (c9state.buffer ++ [c9loc3] : List GPSLocationForMotion).length < 3 := by
    norm_num [c9state]
  have h := C9_fusion_and_smoothing hav0 c9state c9loc3
    (c9state.buffer ++ [c9loc3]) hbuf hlen
  exact ⟨h.1 (1/2) (by norm_num), h.2.1, h.2.2 0 le_rfl⟩

/-- C8 (amended): a coordinate of exactly (0,0) passes isValidCoordinate,
and the batch recomputer skips such points entirely (state unchanged);
the streaming processPoint pipeline, however, has no (0,0) exclusion and
treats such a sample like any other valid coordinate (see the
counterexample, where a (0,0) sample contributes positive distance). -/
theorem C8_origin_sentinel :
    isValidCoordinate 0 0 = true ∧
    (∀ (hav : Hav) (st : BatchState) (p : GPSPoint),
      p.latitude = 0 → p.longitude = 0 → batchStep hav st p = st) := by
  refine ⟨by norm_num [isValidCoordinate], ?_⟩
  intro hav st p h1 h2
  simp only [batchStep, if_pos (And.intro h1 h2)]

/-- Witness for C8: the batch recomputer drops a concrete (0,0) point. -/
theorem C8_witness :
    (⟨0, 0, 1000, some 10, none⟩ : GPSPoint).latitude = 0 ∧
    (⟨0, 0, 1000, some 10, none⟩ : GPSPoint).longitude = 0 ∧
    batchStep hav0 c6stC ⟨0, 0, 1000, some 10, none⟩ = c6stC := by
  exact ⟨rfl, rfl, C8_origin_sentinel.2 hav0 c6stC ⟨0, 0, 1000, some 10, none⟩ rfl rfl⟩

/-- A taxicab-style stand-in for the haversine kernel, 10 metres per
coordinate unit, symmetric and positive between distinct points. -/
def havT : Hav := fun lat1 lon1 lat2 lon2 =>
  10 * (max (lat2 - lat1) (lat1 - lat2) + max (lon2 - lon1) (lon1 - lon2))

def c8inputs : List SampleInput :=
  [⟨some 0, some 0, 1000, some 10, some 1, 9/10⟩,
   ⟨some 6, some 6, 1000, some 10, some 1, 9/10⟩,
   ⟨some 6, some 6, 1000, some 10, some 1, 9/10⟩,
   ⟨some 8, some 8, 1000, some 10, some 1, 9/10⟩,
   ⟨some 0, some 0, 1000, some 10, some 1, 9/10⟩]

def c8p1 : FilteredPoint := ⟨0, 0, 1000, 10, 1, false, 0, 0, 0⟩

def c8p2 : FilteredPoint := ⟨3, 3, 1000, 10, 1, false, 0, 6, 6⟩

def c8p3 : FilteredPoint := ⟨4, 4, 1000, 10, 1, false, 0, 6, 6⟩

def c8p4 : FilteredPoint := ⟨5, 5, 1000, 10, 1, true, 20, 8, 8⟩

def c8p5 : FilteredPoint := ⟨4, 4, 1000, 10, 1, true, 20, 0, 0⟩

def c8s1 : GPSFilterState :=
  ⟨some ⟨0, 0, 144, 144, 1000⟩, [c8p1], some c8p1, true, 0, some (0, 0), 0, 1,
   [⟨0, 0, 1000⟩]⟩

def c8s2 : GPSFilterState :=
  ⟨some ⟨3, 3, 72, 72, 1000⟩, [c8p1, c8p2], some c8p2, true, 0, some (0, 0), 0, 2,
   [⟨0, 0, 1000⟩, ⟨3, 3, 1000⟩]⟩

def c8s3 : GPSFilterState :=
  ⟨some ⟨4, 4, 48, 48, 1000⟩, [c8p1, c8p2, c8p3], some c8p3, true, 0, some (0, 0), 0, 3,
   [⟨0, 0, 1000⟩, ⟨3, 3, 1000⟩, ⟨4, 4, 1000⟩]⟩

def c8s4 : GPSFilterState :=
  ⟨some ⟨5, 5, 36, 36, 1000⟩, [c8p1, c8p2, c8p3, c8p4], some c8p4, false, 1000, none,
   0, 4, [⟨0, 0, 1000⟩, ⟨3, 3, 1000⟩, ⟨4, 4, 1000⟩, ⟨5, 5, 1000⟩]⟩

def c8s5 : GPSFilterState :=
  ⟨some ⟨4, 4, 144/5, 144/5, 1000⟩, [c8p1, c8p2, c8p3, c8p4, c8p5], some c8p5, false,
   1000, none, 0, 5,
   [⟨0, 0, 1000⟩, ⟨3, 3, 1000⟩, ⟨4, 4, 1000⟩, ⟨5, 5, 1000⟩, ⟨4, 4, 1000⟩]⟩

theorem c8step1 : processPoint havT initState (some 0) (some 0) 1000 (some 10) (some 1)
    (9/10) = (⟨0, false, some 0, some 0⟩, c8s1) := by
  norm_num [processPoint, isValidCoordinate, preLockUpdate, applyKalmanFilter,
    MEASUREMENT_NOISE_BASE, PROCESS_NOISE, VARIANCE_WINDOW_SIZE, BUFFER_SIZE,
    MIN_SPEED_MPS, checkStationaryLock, windowPoints, nowOf, netDisplacement, avgSpeed,
    avgAccuracy, lastPosOf, calculatePositionVarianceSq, haversineDistance, havT,
    STATIONARY_LOCK_RELEASE_SECONDS, STATIONARY_LOCK_RELEASE_METERS,
    MIN_ACCURACY_METERS, CONSECUTIVE_MOVING_THRESHOLD, CONSECUTIVE_STATIONARY_THRESHOLD,
    MAX_STATIONARY_VARIANCE, postLockPhase, segmentPhase, zeroResult,
    Option.some_ne_none, reduceCtorEq, MIN_SEGMENT_METERS, DWELL_RADIUS_METERS, initState, c8s1, c8p1]

theorem c8step2 : processPoint havT c8s1 (some 6) (some 6) 1000 (some 10) (some 1)
    (9/10) = (⟨0, false, some 3, some 3⟩, c8s2) := by
  norm_num [processPoint, isValidCoordinate, preLockUpdate, applyKalmanFilter,
    MEASUREMENT_NOISE_BASE, PROCESS_NOISE, VARIANCE_WINDOW_SIZE, BUFFER_SIZE,
    MIN_SPEED_MPS, checkStationaryLock, windowPoints, nowOf, netDisplacement, avgSpeed,
    avgAccuracy, lastPosOf, calculatePositionVarianceSq, haversineDistance, havT,
    STATIONARY_LOCK_RELEASE_SECONDS, STATIONARY_LOCK_RELEASE_METERS,
    MIN_ACCURACY_METERS, CONSECUTIVE_MOVING_THRESHOLD, CONSECUTIVE_STATIONARY_THRESHOLD,
    MAX_STATIONARY_VARIANCE, postLockPhase, segmentPhase, zeroResult,
    Option.some_ne_none, reduceCtorEq, MIN_SEGMENT_METERS, DWELL_RADIUS_METERS, c8s1, c8s2, c8p1, c8p2]

theorem c8step3 : processPoint havT c8s2 (some 6) (some 6) 1000 (some 10) (some 1)
    (9/10) = (⟨0, false, some 4, some 4⟩, c8s3) := by
  norm_num [processPoint, isValidCoordinate, preLockUpdate, applyKalmanFilter,
    MEASUREMENT_NOISE_BASE, PROCESS_NOISE, VARIANCE_WINDOW_SIZE, BUFFER_SIZE,
    MIN_SPEED_MPS, checkStationaryLock, windowPoints, nowOf, netDisplacement, avgSpeed,
    avgAccuracy, lastPosOf, calculatePositionVarianceSq, haversineDistance, havT,
    STATIONARY_LOCK_RELEASE_SECONDS, STATIONARY_LOCK_RELEASE_METERS,
    MIN_ACCURACY_METERS, CONSECUTIVE_MOVING_THRESHOLD, CONSECUTIVE_STATIONARY_THRESHOLD,
    MAX_STATIONARY_VARIANCE, postLockPhase, segmentPhase, zeroResult,
    Option.some_ne_none, reduceCtorEq, MIN_SEGMENT_METERS, DWELL_RADIUS_METERS, c8s2, c8s3, c8p1, c8p2, c8p3]

theorem c8step4 : processPoint havT c8s3 (some 8) (some 8) 1000 (some 10) (some 1)
    (9/10) = (⟨1/50, true, some 5, some 5⟩, c8s4) := by
  norm_num [processPoint, isValidCoordinate, preLockUpdate, applyKalmanFilter,
    MEASUREMENT_NOISE_BASE, PROCESS_NOISE, VARIANCE_WINDOW_SIZE, BUFFER_SIZE,
    MIN_SPEED_MPS, checkStationaryLock, windowPoints, nowOf, netDisplacement, avgSpeed,
    avgAccuracy, lastPosOf, calculatePositionVarianceSq, haversineDistance, havT,
    STATIONARY_LOCK_RELEASE_SECONDS, STATIONARY_LOCK_RELEASE_METERS,
    MIN_ACCURACY_METERS, CONSECUTIVE_MOVING_THRESHOLD, CONSECUTIVE_STATIONARY_THRESHOLD,
    MAX_STATIONARY_VARIANCE, postLockPhase, segmentPhase, zeroResult,
    Option.some_ne_none, reduceCtorEq, MIN_SEGMENT_METERS, DWELL_RADIUS_METERS, c8s3, c8s4, c8p1, c8p2, c8p3, c8p4]

theorem c8step5 : processPoint havT c8s4 (some 0) (some 0) 1000 (some 10) (some 1)
    (9/10) = (⟨1/50, true, some 4, some 4⟩, c8s5) := by
  norm_num [processPoint, isValidCoordinate, preLockUpdate, applyKalmanFilter,
    MEASUREMENT_NOISE_BASE, PROCESS_NOISE, VARIANCE_WINDOW_SIZE, BUFFER_SIZE,
    MIN_SPEED_MPS, checkStationaryLock, windowPoints, nowOf, netDisplacement, avgSpeed,
    avgAccuracy, lastPosOf, calculatePositionVarianceSq, haversineDistance, havT,
    STATIONARY_LOCK_RELEASE_SECONDS, STATIONARY_LOCK_RELEASE_METERS,
    MIN_ACCURACY_METERS, CONSECUTIVE_MOVING_THRESHOLD, CONSECUTIVE_STATIONARY_THRESHOLD,
    MAX_STATIONARY_VARIANCE, postLockPhase, segmentPhase, zeroResult,
    Option.some_ne_none, reduceCtorEq, MIN_SEGMENT_METERS, DWELL_RADIUS_METERS, c8s4, c8s5, c8p1, c8p2, c8p3, c8p4, c8p5]

/-- C8 counterexample: a full streaming run from the initial state whose
last sample has raw coordinates exactly (0,0) and valid surroundings:
the (0,0) sample is processed like any other and contributes 1/50 km,
so the streaming pipeline does not exclude (0,0). -/
theorem C8_counterexample :
    (c8inputs.getLast?.map SampleInput.latitude) = some (some 0) ∧
    (c8inputs.getLast?.map SampleInput.longitude) = some (some 0) ∧
    ((runFilter havT initState c8inputs).1.getLast?.map ProcessResult.distance) =
      some (1/50) ∧
    (1/50 : ℚ) ≠ 0 := by
  refine ⟨by norm_num [c8inputs], by norm_num [c8inputs], ?_, by norm_num⟩
  have hrun : runFilter havT initState c8inputs =
      ([⟨0, false, some 0, some 0⟩, ⟨0, false, some 3, some 3⟩,
        ⟨0, false, some 4, some 4⟩, ⟨1/50, true, some 5, some 5⟩,
        ⟨1/50, true, some 4, some 4⟩], c8s5) := by
    simp only [c8inputs, runFilter, c8step1, c8step2, c8step3, c8step4, c8step5]
  rw [hrun]
  rfl

end RouteTracker
